import Mathlib

/-!
Verification development for the evosim evolutionary-art engine.

This file gives a shallow embedding, in Lean 4, of the core components of
the engine: the opcode table (include/core/opcodes.h), the bytecode virtual
machine (src/core/bytecode_vm.cpp), organism mutation, crossover and
reproduction (src/core/organism.cpp), the symmetry analyzer
(src/core/symmetry_analyzer.cpp), and the environment's pressure,
reproduction and checkpoint logic (src/core/environment.cpp).

Modelling conventions:
- machine bytes (`uint8_t`) are `Nat` values; every place the C++ code
  performs a narrowing cast to `uint8_t` the embedding takes `% 256`
  (via `Int.emod` when the intermediate value may be negative);
- draws from random distributions are supplied by explicit oracle
  arguments (lists or records of pre-drawn values), so that executions are
  deterministic functions of the oracle;
- the drawing canvas (an OpenCV `cv::Mat`) is not part of the modelled
  state: none of the verified properties mention pixel contents, and the
  drawing helpers only affect the canvas, the statistics counters and (for
  the out-of-`int`-range guard) the error message, all of which are
  modelled;
- the OpenCV Canny edge detector used by the complexity score is an
  external library call and is modelled by an oracle edge-count function.
-/

set_option maxRecDepth 8192

namespace Evosim

/-- Operand size table from `include/core/opcodes.h` (`getOperandSize`):
1 for opcodes carrying a one-byte operand, 0 for plain opcodes,
-1 for an unknown opcode. -/
def getOperandSize (op : Nat) : Int :=
  match op with
  | 0x01 | 0x0C | 0x0D | 0x0E | 0x0F | 0x11 | 0x12 | 0x14 | 0x15 => 1
  | 0x00 | 0x02 | 0x03 | 0x04 | 0x05 | 0x06 | 0x07 | 0x08 | 0x09 | 0x0A
  | 0x0B | 0x10 | 0x13 | 0x16 | 0x17 | 0x18 | 0x19 | 0x1A | 0x1B | 0x1C
  | 0x1D | 0x1E | 0x1F | 0x20 | 0x21 | 0xFF => 0
  | _ => -1

/-- VM configuration (`BytecodeVM::Config`). -/
structure VMConfig where
  image_width : Nat
  image_height : Nat
  memory_size : Nat
  stack_size : Nat
  max_instructions : Nat
  deriving Repr, DecidableEq

/-- VM execution state (`BytecodeVM::VMState`).  The stack is a list of
bytes with the top of stack at the head (`std::vector` back = head). -/
structure VMState where
  stack : List Nat
  memory : List Nat
  pc : Nat
  x : Nat
  y : Nat
  color_r : Nat
  color_g : Nat
  color_b : Nat
  running : Bool
  deriving Repr, DecidableEq

/-- Execution statistics (`BytecodeVM::ExecutionStats`). -/
structure ExecutionStats where
  instructions_executed : Nat
  pixels_drawn : Nat
  stack_operations : Nat
  memory_operations : Nat
  halted_normally : Bool
  error_message : String
  deriving Repr, DecidableEq

/-- `BytecodeVM::pushStack`: fails (returns `none`) when the stack is at
the configured capacity. -/
def pushStack (cfg : VMConfig) (v : Nat) (st : VMState) : Option VMState :=
  if st.stack.length ≥ cfg.stack_size then none
  else some { st with stack := v :: st.stack }

/-- `BytecodeVM::popStack`: fails on an empty stack, otherwise returns the
top byte and the state with the top removed. -/
def popStack (st : VMState) : Option (Nat × VMState) :=
  match st.stack with
  | [] => none
  | v :: rest => some (v, { st with stack := rest })

/-- `BytecodeVM::peekStack`. -/
def peekStack (st : VMState) : Option Nat :=
  match st.stack with
  | [] => none
  | v :: _ => some v

/-- The result of one `BytecodeVM::executeInstruction` call: the `Bool` is
the C++ return value (continue execution?), paired with the updated state,
statistics and remaining RNG oracle. -/
abbrev StepResult := Bool × VMState × ExecutionStats × List Nat

/-- The `static_cast<uint8_t>` of an `int` value. -/
def toByte (z : Int) : Nat := (z % 256).toNat

/-- `BytecodeVM::executeBinaryOp`: pop `b`, pop `a`, optionally fail on
`b = 0`, push the byte-truncated `op a b`, advance the pc by one and count
three stack operations. -/
def executeBinaryOp (cfg : VMConfig) (f : Nat → Nat → Int)
    (error_on_zero : Option String) (st : VMState) (stats : ExecutionStats)
    (rng : List Nat) : StepResult :=
  match popStack st with
  | none => (false, st, { stats with error_message := "Stack underflow" }, rng)
  | some (b, st1) =>
    match popStack st1 with
    | none => (false, st1, { stats with error_message := "Stack underflow" }, rng)
    | some (a, st2) =>
      match error_on_zero with
      | some msg =>
        if b = 0 then (false, st2, { stats with error_message := msg }, rng)
        else
          match pushStack cfg (toByte (f a b)) st2 with
          | none => (false, st2, { stats with error_message := "Stack overflow" }, rng)
          | some st3 =>
            (true, { st3 with pc := st3.pc + 1 },
              { stats with stack_operations := stats.stack_operations + 3 }, rng)
      | none =>
        match pushStack cfg (toByte (f a b)) st2 with
        | none => (false, st2, { stats with error_message := "Stack overflow" }, rng)
        | some st3 =>
          (true, { st3 with pc := st3.pc + 1 },
            { stats with stack_operations := stats.stack_operations + 3 }, rng)

/-- `BytecodeVM::executeUnaryOp`. -/
def executeUnaryOp (cfg : VMConfig) (f : Nat → Int) (st : VMState)
    (stats : ExecutionStats) (rng : List Nat) : StepResult :=
  match popStack st with
  | none => (false, st, { stats with error_message := "Stack underflow" }, rng)
  | some (a, st1) =>
    match pushStack cfg (toByte (f a)) st1 with
    | none => (false, st1, { stats with error_message := "Stack overflow" }, rng)
    | some st2 =>
      (true, { st2 with pc := st2.pc + 1 },
        { stats with stack_operations := stats.stack_operations + 2 }, rng)

/-- `BytecodeVM::executeSetColor`: pop a byte into a color channel.  The
channel is selected by the caller via `setter`. -/
def executeSetColor (setter : VMState → Nat → VMState) (st : VMState)
    (stats : ExecutionStats) (rng : List Nat) : StepResult :=
  match popStack st with
  | none => (false, st, { stats with error_message := "Stack underflow" }, rng)
  | some (v, st1) =>
    (true, { setter st1 v with pc := st1.pc + 1 },
      { stats with stack_operations := stats.stack_operations + 1 }, rng)

/-- Value of `INT_MAX`, used by the draw helpers' range guard. -/
def intMax : Nat := 2147483647

/-- The statistics after `BytecodeVM::drawCircle` / `drawRectangle`: both
set the error message (while still succeeding) when the cursor does not fit
in an `int`; the canvas effect itself is not modelled. -/
def drawGuardStats (st : VMState) (stats : ExecutionStats) : ExecutionStats :=
  if st.x > intMax ∨ st.y > intMax then
    { stats with error_message := "X or Y coordinate out of range for int conversion" }
  else stats

/-- Pop `n` bytes off the stack (`popStack` iterated, as in the multi-pop
instruction cases).  Returns the popped bytes in pop order.  When the stack
holds fewer than `n` bytes the C++ pop sequence fails after emptying the
stack, so on failure callers use `{ st with stack := [] }` as the state. -/
def popN (n : Nat) (st : VMState) : Option (List Nat × VMState) :=
  if st.stack.length < n then none
  else some (st.stack.take n, { st with stack := st.stack.drop n })

/-- One dispatch of `BytecodeVM::executeInstruction` (the big `switch` in
src/core/bytecode_vm.cpp).  `op` is the opcode byte, `operand` the byte
after it in memory (or 0 at the memory edge); `rng` is the oracle for the
`RANDOM` opcode.  Returns `false` exactly when the C++ function does. -/
def executeInstruction (cfg : VMConfig) (op operand : Nat) (st : VMState)
    (stats : ExecutionStats) (rng : List Nat) : StepResult :=
  match op with
  | 0x00 => (true, { st with pc := st.pc + 1 }, stats, rng)
  | 0x01 =>
    match pushStack cfg operand st with
    | none => (false, st, { stats with error_message := "Stack overflow" }, rng)
    | some st1 =>
      (true, { st1 with pc := st1.pc + 2 },
        { stats with stack_operations := stats.stack_operations + 1 }, rng)
  | 0x02 =>
    match popStack st with
    | none => (false, st, { stats with error_message := "Stack underflow" }, rng)
    | some (_, st1) =>
      (true, { st1 with pc := st1.pc + 1 },
        { stats with stack_operations := stats.stack_operations + 1 }, rng)
  | 0x03 => executeBinaryOp cfg (fun a b => (a : Int) + b) none st stats rng
  | 0x04 => executeBinaryOp cfg (fun a b => (a : Int) - b) none st stats rng
  | 0x05 => executeBinaryOp cfg (fun a b => (a : Int) * b) none st stats rng
  | 0x06 => executeBinaryOp cfg (fun a b => (a : Int) / b) (some "Division by zero") st stats rng
  | 0x07 => executeBinaryOp cfg (fun a b => (a : Int) % b) (some "Modulo by zero") st stats rng
  | 0x08 => executeBinaryOp cfg (fun a b => (Nat.land a b : Int)) none st stats rng
  | 0x09 => executeBinaryOp cfg (fun a b => (Nat.lor a b : Int)) none st stats rng
  | 0x0A => executeBinaryOp cfg (fun a b => (Nat.xor a b : Int)) none st stats rng
  | 0x0B => executeUnaryOp cfg (fun a => -1 - (a : Int)) st stats rng
  | 0x0C => (true, { st with pc := operand }, stats, rng)
  | 0x0D =>
    match peekStack st with
    | none => (false, st, { stats with error_message := "Stack underflow" }, rng)
    | some a =>
      if a = 0 then (true, { st with pc := operand }, stats, rng)
      else (true, { st with pc := st.pc + 2 }, stats, rng)
  | 0x0E =>
    match peekStack st with
    | none => (false, st, { stats with error_message := "Stack underflow" }, rng)
    | some a =>
      if a ≠ 0 then (true, { st with pc := operand }, stats, rng)
      else (true, { st with pc := st.pc + 2 }, stats, rng)
  | 0x0F => (true, { st with pc := operand }, stats, rng)
  | 0x10 => (true, { st with pc := st.pc + 1 }, stats, rng)
  | 0x11 =>
    if operand < st.memory.length then
      match pushStack cfg (st.memory.getD operand 0) st with
      | none => (false, st, { stats with error_message := "Stack overflow" }, rng)
      | some st1 =>
        (true, { st1 with pc := st1.pc + 2 },
          { stats with memory_operations := stats.memory_operations + 1,
                       stack_operations := stats.stack_operations + 1 }, rng)
    else (false, st, { stats with error_message := "Memory access out of bounds" }, rng)
  | 0x12 =>
    match popStack st with
    | none => (false, st, { stats with error_message := "Stack underflow" }, rng)
    | some (a, st1) =>
      if operand < st1.memory.length then
        (true, { st1 with memory := st1.memory.set operand a, pc := st1.pc + 2 },
          { stats with memory_operations := stats.memory_operations + 1,
                       stack_operations := stats.stack_operations + 1 }, rng)
      else (false, st1, { stats with error_message := "Memory access out of bounds" }, rng)
  | 0x13 =>
    (true, { st with pc := st.pc + 1 },
      { stats with pixels_drawn := stats.pixels_drawn + 1 }, rng)
  | 0x14 => (true, { st with x := operand, pc := st.pc + 2 }, stats, rng)
  | 0x15 => (true, { st with y := operand, pc := st.pc + 2 }, stats, rng)
  | 0x16 => executeSetColor (fun s v => { s with color_r := v }) st stats rng
  | 0x17 => executeSetColor (fun s v => { s with color_g := v }) st stats rng
  | 0x18 => executeSetColor (fun s v => { s with color_b := v }) st stats rng
  | 0x19 =>
    match pushStack cfg (rng.headD 0 % 256) st with
    | none => (false, st, { stats with error_message := "Stack overflow" }, rng.tail)
    | some st1 =>
      (true, { st1 with pc := st1.pc + 1 },
        { stats with stack_operations := stats.stack_operations + 1 }, rng.tail)
  | 0x1A =>
    match peekStack st with
    | none => (false, st, { stats with error_message := "Stack underflow" }, rng)
    | some a =>
      match pushStack cfg a st with
      | none => (false, st, { stats with error_message := "Stack overflow" }, rng)
      | some st1 =>
        (true, { st1 with pc := st1.pc + 1 },
          { stats with stack_operations := stats.stack_operations + 1 }, rng)
  | 0x1B =>
    match popStack st with
    | none => (false, st, { stats with error_message := "Stack underflow" }, rng)
    | some (b, st1) =>
      match popStack st1 with
      | none => (false, st1, { stats with error_message := "Stack underflow" }, rng)
      | some (a, st2) =>
        match pushStack cfg b st2 with
        | none => (false, st2, { stats with error_message := "Stack overflow" }, rng)
        | some st3 =>
          match pushStack cfg a st3 with
          | none => (false, st3, { stats with error_message := "Stack overflow" }, rng)
          | some st4 =>
            (true, { st4 with pc := st4.pc + 1 },
              { stats with stack_operations := stats.stack_operations + 4 }, rng)
  | 0x1C =>
    match popStack st with
    | none => (false, st, { stats with error_message := "Stack underflow" }, rng)
    | some (c, st1) =>
      match popStack st1 with
      | none => (false, st1, { stats with error_message := "Stack underflow" }, rng)
      | some (b, st2) =>
        match popStack st2 with
        | none => (false, st2, { stats with error_message := "Stack underflow" }, rng)
        | some (a, st3) =>
          match pushStack cfg b st3 with
          | none => (false, st3, { stats with error_message := "Stack overflow" }, rng)
          | some st4 =>
            match pushStack cfg c st4 with
            | none => (false, st4, { stats with error_message := "Stack overflow" }, rng)
            | some st5 =>
              match pushStack cfg a st5 with
              | none => (false, st5, { stats with error_message := "Stack overflow" }, rng)
              | some st6 =>
                (true, { st6 with pc := st6.pc + 1 },
                  { stats with stack_operations := stats.stack_operations + 6 }, rng)
  | 0x1D =>
    match popStack st with
    | none => (false, st, { stats with error_message := "Stack underflow" }, rng)
    | some (_, st1) =>
      let stats1 := drawGuardStats st1 stats
      (true, { st1 with pc := st1.pc + 1 },
        { stats1 with pixels_drawn := stats1.pixels_drawn + 1,
                      stack_operations := stats1.stack_operations + 1 }, rng)
  | 0x1E =>
    match popN 2 st with
    | none => (false, { st with stack := [] },
        { stats with error_message := "Stack underflow" }, rng)
    | some p =>
      let stats1 := drawGuardStats p.2 stats
      (true, { p.2 with pc := p.2.pc + 1 },
        { stats1 with pixels_drawn := stats1.pixels_drawn + 1,
                      stack_operations := stats1.stack_operations + 2 }, rng)
  | 0x1F =>
    match popN 2 st with
    | none => (false, { st with stack := [] },
        { stats with error_message := "Stack underflow for DRAW_LINE" }, rng)
    | some p =>
      (true, { p.2 with pc := p.2.pc + 1 },
        { stats with pixels_drawn := stats.pixels_drawn + 1,
                     stack_operations := stats.stack_operations + 2 }, rng)
  | 0x20 =>
    match popN 4 st with
    | none => (false, { st with stack := [] },
        { stats with error_message := "Stack underflow for DRAW_BEZIER_CURVE" }, rng)
    | some p =>
      (true, { p.2 with pc := p.2.pc + 1 },
        { stats with pixels_drawn := stats.pixels_drawn + 1,
                     stack_operations := stats.stack_operations + 4 }, rng)
  | 0x21 =>
    match popN 6 st with
    | none => (false, { st with stack := [] },
        { stats with error_message := "Stack underflow for DRAW_TRIANGLE" }, rng)
    | some p =>
      (true, { p.2 with pc := p.2.pc + 1 },
        { stats with pixels_drawn := stats.pixels_drawn + 1,
                     stack_operations := stats.stack_operations + 6 }, rng)
  | 0xFF => (false, { st with running := false }, stats, rng)
  | _ =>
    (false, st,
      { stats with error_message := "Unknown opcode: " ++ toString op }, rng)

/-- The `while (state_.running)` loop of `BytecodeVM::executionLoop`.
`fuel` bounds the number of iterations; `execute` supplies
`max_instructions + 1`, which is never exhausted because every iteration
increments `instructions_executed` and the loop stops once that counter
reaches the budget (the fuel-out result coincides with the loop's ordinary
exit).  On exit, `halted_normally` is set to the negation of `running`. -/
def executionLoop (cfg : VMConfig) :
    Nat → VMState → ExecutionStats → List Nat → VMState × ExecutionStats × List Nat
  | 0, st, stats, rng => (st, { stats with halted_normally := !st.running }, rng)
  | fuel + 1, st, stats, rng =>
    if st.running = false then
      (st, { stats with halted_normally := !st.running }, rng)
    else if st.pc ≥ st.memory.length then
      (st, { stats with halted_normally := !st.running }, rng)
    else if stats.instructions_executed ≥ cfg.max_instructions then
      (st, { stats with halted_normally := !st.running }, rng)
    else
      let op := st.memory.getD st.pc 0
      let operand := if st.pc + 1 < st.memory.length then st.memory.getD (st.pc + 1) 0 else 0
      let r := executeInstruction cfg op operand st stats rng
      if r.1 then
        executionLoop cfg fuel r.2.1
          { r.2.2.1 with instructions_executed := r.2.2.1.instructions_executed + 1 } r.2.2.2
      else
        (r.2.1, { r.2.2.1 with halted_normally := !r.2.1.running }, r.2.2.2)

/-- The zeroed statistics produced by `BytecodeVM::resetStats`. -/
def resetStats : ExecutionStats :=
  { instructions_executed := 0, pixels_drawn := 0, stack_operations := 0,
    memory_operations := 0, halted_normally := false, error_message := "" }

/-- The state produced by `BytecodeVM::initializeState` followed by the
bytecode copy in `BytecodeVM::execute`: memory is the leading
`min (code.length) memory_size` bytes of the program padded with zeros. -/
def initialState (cfg : VMConfig) (code : List Nat) : VMState :=
  let copy_size := min code.length cfg.memory_size
  { stack := []
    memory := code.take copy_size ++ List.replicate (cfg.memory_size - copy_size) 0
    pc := 0, x := 0, y := 0, color_r := 0, color_g := 0, color_b := 0
    running := true }

/-- `BytecodeVM::execute(bytecode)`: reset, copy the program into memory
and run the execution loop. -/
def execute (cfg : VMConfig) (code : List Nat) (rng : List Nat) :
    VMState × ExecutionStats × List Nat :=
  executionLoop cfg (cfg.max_instructions + 1) (initialState cfg code) resetStats rng

/-- The scan loop of `BytecodeVM::validateBytecode`, starting at index `i`:
reject on an unknown opcode or an instruction whose operand does not fit
before the end of the program; accept when the index runs off the end. -/
def validateFrom (code : List Nat) : Nat → Nat → Bool
  | 0, _ => true
  | fuel + 1, i =>
    if i < code.length then
      let osize := getOperandSize (code.getD i 0)
      if osize = -1 then false
      else if i + osize.toNat ≥ code.length then false
      else validateFrom code fuel (i + 1 + osize.toNat)
    else true

/-- `BytecodeVM::validateBytecode`: the empty program is rejected outright,
otherwise the instruction walk from index 0 decides.  The index strictly
increases on every iteration, so `code.length` steps of fuel always
suffice. -/
def validateBytecode (code : List Nat) : Bool :=
  if code.isEmpty then false else validateFrom code code.length 0

/-- Specification-side predicate for claim C4, following the spec's words:
walking the program from index `i` using the operand-width table, every
instruction's (opcode, operand) pair is complete within the program and no
unknown opcode is encountered (vacuously true past the end). -/
inductive WalksOK (code : List Nat) : Nat → Prop
  | atEnd (i : Nat) (h : code.length ≤ i) : WalksOK code i
  | step (i : Nat) (h : i < code.length)
      (hknown : getOperandSize (code.getD i 0) ≠ -1)
      (hcomplete : i + (getOperandSize (code.getD i 0)).toNat < code.length)
      (rest : WalksOK code (i + 1 + (getOperandSize (code.getD i 0)).toNat)) :
      WalksOK code i

/-- Image model: a raster with `rows × cols` pixels of three 8-bit
channels.  `cv::Mat::empty()` corresponds to `rows * cols = 0`. -/
structure Img where
  rows : Nat
  cols : Nat
  pix : Nat → Nat → Nat × Nat × Nat

/-- Absolute per-channel difference (`std::abs` of the `int` difference). -/
def chanDiff (x y : Nat) : Nat := Int.natAbs ((x : Int) - y)

/-- Sum of the three per-channel absolute differences of two pixels (the
innermost channel loop of the symmetry scans). -/
def pixDiff (a b : Nat × Nat × Nat) : Nat :=
  chanDiff a.1 b.1 + chanDiff a.2.1 b.2.1 + chanDiff a.2.2 b.2.2

/-- Accumulating loop `for i in [0, n)` of the symmetry scans. -/
def sumRange (n : Nat) (f : Nat → Nat) : Nat :=
  (List.range n).foldl (fun acc i => acc + f i) 0

/-- Analyzer configuration (`SymmetryAnalyzer::Config`). -/
structure AnalyzerConfig where
  enable_horizontal : Bool
  enable_vertical : Bool
  enable_diagonal : Bool
  enable_rotational : Bool
  enable_complexity : Bool
  horizontal_weight : ℚ
  vertical_weight : ℚ
  diagonal_weight : ℚ
  rotational_weight : ℚ
  complexity_weight : ℚ
  histogram_bins : Nat
  noise_threshold : ℚ
  normalize_scores : Bool
  deriving Repr, DecidableEq

/-- Analysis result (`SymmetryAnalyzer::SymmetryResult`; the unused
histogram vector is omitted).  `default` is the all-zero record. -/
structure SymmetryResult where
  horizontal_symmetry : ℚ
  vertical_symmetry : ℚ
  diagonal_symmetry : ℚ
  rotational_symmetry : ℚ
  overall_symmetry : ℚ
  complexity_score : ℚ
  fitness_score : ℚ
  deriving Repr, DecidableEq, Inhabited

/-- `SymmetryAnalyzer::calculateHorizontalSymmetry`: mean absolute
difference between rows mirrored about the horizontal midline, converted to
a similarity in [0,1]. -/
def calculateHorizontalSymmetry (img : Img) : ℚ :=
  if img.rows < 2 then 0
  else
    let total_diff := sumRange (img.rows / 2) fun y =>
      sumRange img.cols fun x =>
        pixDiff (img.pix y x) (img.pix (img.rows - 1 - y) x)
    let comparisons := img.rows / 2 * img.cols * 3
    if comparisons = 0 then 0
    else max 0 (1 - (total_diff : ℚ) / comparisons / 255)

/-- `SymmetryAnalyzer::calculateVerticalSymmetry`. -/
def calculateVerticalSymmetry (img : Img) : ℚ :=
  if img.cols < 2 then 0
  else
    let total_diff := sumRange img.rows fun y =>
      sumRange (img.cols / 2) fun x =>
        pixDiff (img.pix y x) (img.pix y (img.cols - 1 - x))
    let comparisons := img.rows * (img.cols / 2) * 3
    if comparisons = 0 then 0
    else max 0 (1 - (total_diff : ℚ) / comparisons / 255)

/-- `SymmetryAnalyzer::calculateDiagonalSymmetry`: compare `(i, j)` with
`(j, i)` for `i < j` over the square prefix of side `min rows cols`. -/
def calculateDiagonalSymmetry (img : Img) : ℚ :=
  if img.cols < 2 ∨ img.rows < 2 then 0
  else
    let min_dim := min img.cols img.rows
    let total_diff := sumRange min_dim fun i =>
      sumRange min_dim fun j =>
        if i < j then pixDiff (img.pix i j) (img.pix j i) else 0
    let comparisons := min_dim * (min_dim - 1) / 2 * 3
    if comparisons = 0 then 0
    else max 0 (1 - (total_diff : ℚ) / comparisons / 255)

/-- `SymmetryAnalyzer::calculateRotationalSymmetry`: compare the upper-left
quadrant with its 180-degree rotation. -/
def calculateRotationalSymmetry (img : Img) : ℚ :=
  if img.cols < 2 ∨ img.rows < 2 then 0
  else
    let total_diff := sumRange (img.rows / 2) fun y =>
      sumRange (img.cols / 2) fun x =>
        pixDiff (img.pix y x) (img.pix (img.rows - 1 - y) (img.cols - 1 - x))
    let comparisons := img.rows / 2 * (img.cols / 2) * 3
    if comparisons = 0 then 0
    else max 0 (1 - (total_diff : ℚ) / comparisons / 255)

/-- `SymmetryAnalyzer::calculateComplexity`.  The Canny edge detector is an
external OpenCV call; `edgeCount` is the oracle giving its non-zero pixel
count for the image. -/
def calculateComplexity (edgeCount : Img → Nat) (img : Img) : ℚ :=
  if img.rows * img.cols = 0 then 0
  else
    let total_pixels := img.rows * img.cols
    if total_pixels = 0 then 0
    else min 1 ((edgeCount img : ℚ) / total_pixels * 10)

/-- `SymmetryAnalyzer::calculateFitnessScore`: weighted sum of the enabled
components, clamped to [0,1]. -/
def calculateFitnessScore (cfg : AnalyzerConfig) (r : SymmetryResult) : ℚ :=
  let f0 : ℚ := 0
  let f1 := if cfg.enable_horizontal then f0 + r.horizontal_symmetry * cfg.horizontal_weight else f0
  let f2 := if cfg.enable_vertical then f1 + r.vertical_symmetry * cfg.vertical_weight else f1
  let f3 := if cfg.enable_diagonal then f2 + r.diagonal_symmetry * cfg.diagonal_weight else f2
  let f4 := if cfg.enable_rotational then f3 + r.rotational_symmetry * cfg.rotational_weight else f3
  let f5 := if cfg.enable_complexity then f4 + r.complexity_score * cfg.complexity_weight else f4
  max 0 (min 1 f5)

/-- `SymmetryAnalyzer::analyze`: on an empty image the default result is
returned; otherwise all component scores are computed, the overall score is
their plain average (independently of the per-axis enables) and the fitness
is the enabled-weighted clamp. -/
def analyze (cfg : AnalyzerConfig) (edgeCount : Img → Nat) (img : Img) :
    SymmetryResult :=
  if img.rows * img.cols = 0 then default
  else
    let res0 : SymmetryResult :=
      { horizontal_symmetry := calculateHorizontalSymmetry img
        vertical_symmetry := calculateVerticalSymmetry img
        diagonal_symmetry := calculateDiagonalSymmetry img
        rotational_symmetry := calculateRotationalSymmetry img
        overall_symmetry :=
          (calculateHorizontalSymmetry img + calculateVerticalSymmetry img +
            calculateDiagonalSymmetry img + calculateRotationalSymmetry img) / 4
        complexity_score := calculateComplexity edgeCount img
        fitness_score := 0 }
    { res0 with fitness_score := calculateFitnessScore cfg res0 }

/-- Oracle for the random draws one processed instruction of
`Organism::applyMutations` may consume: the mutation-chance roll, the
operand-versus-opcode roll, and the values behind `byte_dist` /
`forward_dist`, and `opcode_dist`. -/
structure MutRand where
  roll : ℚ
  roll2 : ℚ
  newByte : Nat
  opIdx : Nat
  deriving Repr, DecidableEq, Inhabited

/-- The `all_mutable_opcodes` list of `Organism::applyMutations` (30
opcodes; HALT is deliberately excluded). -/
def all_mutable_opcodes : List Nat :=
  [0x00, 0x01, 0x02, 0x03, 0x04, 0x05, 0x06, 0x07, 0x08, 0x09,
   0x0A, 0x0B, 0x0C, 0x0D, 0x0E, 0x0F, 0x10, 0x11, 0x12, 0x13,
   0x14, 0x15, 0x16, 0x17, 0x18, 0x19, 0x1A, 0x1B, 0x1C, 0x1D]

/-- The instruction-walk loop of `Organism::applyMutations`.  `i` walks the
bytecode instruction by instruction, stopping before the last byte; `muts`
counts applied mutations; one `MutRand` record is consumed per processed
instruction.  Returns the mutated bytecode and the mutation count. -/
def mutGo (rate : ℚ) (maxMut : Nat) :
    Nat → List Nat → Nat → Nat → List MutRand → List Nat × Nat
  | 0, code, _, muts, _ => (code, muts)
  | fuel + 1, code, i, muts, rnd =>
    if i < code.length - 1 ∧ muts < maxMut then
      let op := code.getD i 0
      let osize := getOperandSize op
      if osize = -1 ∨ i + osize.toNat ≥ code.length then
        mutGo rate maxMut fuel code (i + 1) muts rnd
      else
        let r := rnd.headD default
        if r.roll < rate then
          let has_operand := decide (0 < osize)
          let mutate_operand := has_operand && decide (r.roll2 < (1 : ℚ) / 2)
          if mutate_operand then
            if op = 0x0C ∨ op = 0x0D ∨ op = 0x0E ∨ op = 0x0F then
              let current_end := i + 1 + osize.toNat
              let min_target := current_end % 256
              let max_target := min 255 (code.length - 2)
              if min_target ≤ max_target then
                mutGo rate maxMut fuel
                  (code.set (i + 1) (min_target + r.newByte % (max_target - min_target + 1)))
                  (i + 1 + osize.toNat) (muts + 1) rnd.tail
              else
                mutGo rate maxMut fuel (code.set i 0x00) (i + 1 + osize.toNat)
                  (muts + 1) rnd.tail
            else
              mutGo rate maxMut fuel (code.set (i + 1) (r.newByte % 256))
                (i + 1 + osize.toNat) (muts + 1) rnd.tail
          else
            mutGo rate maxMut fuel (code.set i (all_mutable_opcodes.getD (r.opIdx % 30) 0))
              (i + 1 + osize.toNat) (muts + 1) rnd.tail
        else
          mutGo rate maxMut fuel code (i + 1 + osize.toNat) muts rnd.tail
    else (code, muts)

/-- `Organism::applyMutations`: early-out on an empty program, a
non-positive rate or a zero mutation budget, otherwise run the walk.  The
index strictly increases on every iteration while the loop guard needs
`i < length - 1`, so `code.length` steps of fuel always suffice. -/
def applyMutations (code : List Nat) (rate : ℚ) (maxMut : Nat)
    (rnd : List MutRand) : List Nat × Nat :=
  if code = [] ∨ rate ≤ 0 ∨ maxMut = 0 then (code, 0)
  else mutGo rate maxMut code.length code 0 0 rnd

/-- Whether an opcode is one of the six drawing instructions that end a
crossover unit in `findUnitBoundaries`. -/
def isDrawingOp (op : Nat) : Bool :=
  op = 0x13 ∨ op = 0x1D ∨ op = 0x1E ∨ op = 0x1F ∨ op = 0x20 ∨ op = 0x21

/-- The scan loop of `findUnitBoundaries` (organism.cpp): positions just
after a drawing instruction (when still inside the program) are appended to
the accumulated boundary list. -/
def findUnitBoundariesGo (code : List Nat) : Nat → Nat → List Nat → List Nat
  | 0, _, acc => acc
  | fuel + 1, i, acc =>
    if i < code.length then
      let op := code.getD i 0
      let osize := getOperandSize op
      if osize = -1 then findUnitBoundariesGo code fuel (i + 1) acc
      else
        let instruction_size := 1 + osize.toNat
        let acc1 :=
          if isDrawingOp op ∧ i + instruction_size < code.length then
            acc ++ [i + instruction_size]
          else acc
        findUnitBoundariesGo code fuel (i + instruction_size) acc1
    else acc

/-- `findUnitBoundaries`: index 0 is always a boundary.  The index strictly
increases on every iteration, so `code.length` steps of fuel always
suffice. -/
def findUnitBoundaries (code : List Nat) : List Nat :=
  findUnitBoundariesGo code code.length 0 [0]

/-- The organism fields that participate in reproduction, statistics and
checkpointing: exactly the field set of `Organism::serialize`. -/
structure OrgRecord where
  id : Nat
  generation : Nat
  parent_id : Nat
  fitness_score : ℚ
  bytecode : List Nat
  deriving Repr, DecidableEq, Inhabited

/-- Oracle for the random draws of one `Organism::reproduceWith` call: the
two crossover-point draws and the mutation oracle. -/
structure ReproRand where
  cross1 : Nat
  cross2 : Nat
  mutRnd : List MutRand
  deriving Repr, DecidableEq, Inhabited

/-- The `Organism(bytecode, vm, parent_id)` constructor (organism.cpp):
the new organism's generation is 0 for a zero `parent_id` and 1 otherwise,
and `parent_id` is recorded verbatim.  `newId` stands for the value drawn
from the process-wide monotonic id counter. -/
def mkOrganism (bytecode : List Nat) (newId parent_id : Nat) : OrgRecord :=
  { id := newId
    generation := if parent_id = 0 then 0 else 1
    parent_id := parent_id
    fitness_score := 0
    bytecode := bytecode }

/-- `Organism::reproduceWith` (organism.cpp): returns `none` when either
parent's bytecode is empty; otherwise performs structure-aware (or
fallback single-point) crossover, mutates the child bytecode, and builds
the offspring, overriding its generation with `parent1.generation + 1`. -/
def reproduceWith (p1 p2 : OrgRecord) (newId : Nat) (rate : ℚ) (maxMut : Nat)
    (rnd : ReproRand) : Option OrgRecord :=
  if p1.bytecode = [] ∨ p2.bytecode = [] then none
  else
    let boundaries1 := findUnitBoundaries p1.bytecode
    let boundaries2 := findUnitBoundaries p2.bytecode
    let child_bytecode :=
      if 1 < boundaries1.length ∧ 1 < boundaries2.length then
        let crossover_point1 := boundaries1.getD (1 + rnd.cross1 % (boundaries1.length - 1)) 0
        let crossover_point2 := boundaries2.getD (1 + rnd.cross2 % (boundaries2.length - 1)) 0
        p1.bytecode.take crossover_point1 ++ p2.bytecode.drop crossover_point2
      else
        let crossover_point := rnd.cross1 % (min p1.bytecode.length p2.bytecode.length + 1)
        p1.bytecode.take crossover_point ++ p2.bytecode.drop crossover_point
    let mutated := applyMutations child_bytecode rate maxMut rnd.mutRnd
    some { mkOrganism mutated.1 newId p1.id with generation := p1.generation + 1 }

/-- Environment configuration (`Environment::Config`).  The
`immigration_chance` field is referenced by
`Environment::performReproduction` in environment.cpp (it is missing from
the header's `Config` declaration). -/
structure EnvConfig where
  max_population : Nat
  initial_population : Nat
  initial_bytecode_size : Nat
  min_population : Nat
  elite_count : Nat
  mutation_rate : ℚ
  max_mutations : Nat
  resource_abundance : ℚ
  generation_time_ms : Nat
  enable_aging : Bool
  max_age_ms : Nat
  enable_competition : Bool
  competition_intensity : ℚ
  enable_cooperation : Bool
  cooperation_bonus : ℚ
  enable_predation : Bool
  enable_random_catastrophes : Bool
  fitness_weight_symmetry : ℚ
  fitness_weight_variation : ℚ
  immigration_chance : ℚ
  deriving Repr, DecidableEq

/-- Environment statistics (`Environment::EnvironmentStats`).  The
transient `last_update` time point is not serialized and is omitted. -/
structure EnvStats where
  generation : Nat
  population_size : Nat
  max_population : Nat
  births_this_gen : Nat
  deaths_this_gen : Nat
  avg_fitness : ℚ
  max_fitness : ℚ
  min_fitness : ℚ
  fitness_variance : ℚ
  total_organisms_created : Nat
  total_organisms_died : Nat
  deriving Repr, DecidableEq, Inhabited

/-- The environment state relevant to checkpointing and pressures: its
three configurations, the population map (modelled as a list of records
keyed by `id`), the statistics and the opaque serialized RNG state. -/
structure Env where
  config : EnvConfig
  vm_config : VMConfig
  analyzer_config : AnalyzerConfig
  population : List OrgRecord
  stats : EnvStats
  rng_state : String
  deriving Repr, DecidableEq

/-- The persisted checkpoint document written by `Environment::saveState`
(an `OrgRecord` is exactly the field set of `Organism::serialize`).
`rng_state = none` models an older document without the field. -/
structure Checkpoint where
  version : String
  config : EnvConfig
  vm_config : VMConfig
  analyzer_config : AnalyzerConfig
  stats : EnvStats
  rng_state : Option String
  organisms : List OrgRecord
  deriving Repr, DecidableEq

/-- `Environment::saveState`: write the version tag, the three configs,
the full stats record, the serialized RNG state and one serialized record
per organism (file output itself is outside the model). -/
def saveState (env : Env) : Checkpoint :=
  { version := "ENVIRONMENT_STATE_V4"
    config := env.config
    vm_config := env.vm_config
    analyzer_config := env.analyzer_config
    stats := env.stats
    rng_state := some env.rng_state
    organisms := env.population }

/-- Insertion into the population map (`population_[id] = organism`):
replaces an existing entry with the same id, otherwise appends. -/
def insertOrganism (pop : List OrgRecord) (o : OrgRecord) : List OrgRecord :=
  if pop.any (fun p => p.id = o.id) then
    pop.map (fun p => if p.id = o.id then o else p)
  else pop ++ [o]

/-- `Environment::calculateFitnessStats`: average, extrema and variance of
the population's fitness scores (no-op on an empty score list). -/
def calculateFitnessStats (pop : List OrgRecord) (stats : EnvStats) : EnvStats :=
  let fitness_scores := pop.map (fun o => o.fitness_score)
  match fitness_scores with
  | [] => stats
  | s :: rest =>
    let avg := fitness_scores.foldl (· + ·) 0 / (fitness_scores.length : ℚ)
    let variance :=
      fitness_scores.foldl (fun acc f => acc + (f - avg) * (f - avg)) 0 / (fitness_scores.length : ℚ)
    { stats with
        avg_fitness := avg
        max_fitness := rest.foldl max s
        min_fitness := rest.foldl min s
        fitness_variance := variance }

/-- `Environment::updateStats`: refresh the population size and the
configured maximum, and recompute fitness statistics when the population
is non-empty. -/
def updateStatsEnv (env : Env) : Env :=
  let stats1 := { env.stats with
    population_size := env.population.length
    max_population := env.config.max_population }
  if env.population = [] then { env with stats := stats1 }
  else { env with stats := calculateFitnessStats env.population stats1 }

/-- `Environment::loadState`: reject any version other than V4/V3, restore
the configs, the stats and the organisms (deserialization of a record
written by `saveState` always succeeds), restore the RNG from the stored
string or re-seed (`freshSeed`) when it is absent or empty, and finish
with `updateStats`. -/
def loadState (cp : Checkpoint) (freshSeed : String) (env : Env) : Option Env :=
  if cp.version ≠ "ENVIRONMENT_STATE_V4" ∧ cp.version ≠ "ENVIRONMENT_STATE_V3" then none
  else
    let rng :=
      match cp.rng_state with
      | some s => if s = "" then freshSeed else s
      | none => freshSeed
    let pop := cp.organisms.foldl insertOrganism []
    some (updateStatsEnv
      { env with
          config := cp.config
          vm_config := cp.vm_config
          analyzer_config := cp.analyzer_config
          stats := cp.stats
          rng_state := rng
          population := pop })

/-- Oracle for the random draws of one
`Environment::apply_environmental_pressures_unlocked_` call: the
catastrophe-chance roll, the two shuffled id orders consumed by
`remove_random_organisms_unlocked_`, and the index draws of the predation
`discrete_distribution`. -/
structure PressRand where
  cat_roll : ℚ
  shuffled1 : List Nat
  shuffled2 : List Nat
  pred_indices : List Nat
  deriving Repr, DecidableEq, Inhabited

/-- `Environment::remove_random_organisms_unlocked_`: remove the
organisms whose ids head the shuffled id order (the oracle stands for
`std::shuffle` of the population's ids), counting each successful erase as
a death. -/
def removeRandomOrganisms (pop : List OrgRecord) (stats : EnvStats)
    (count : Nat) (shuffled_ids : List Nat) : List OrgRecord × EnvStats :=
  if count = 0 ∨ pop = [] then (pop, stats)
  else
    let count := min count pop.length
    (shuffled_ids.take count).foldl
      (fun acc oid =>
        if acc.1.any (fun o => o.id = oid) then
          (acc.1.filter (fun o => o.id ≠ oid),
            { acc.2 with total_organisms_died := acc.2.total_organisms_died + 1 })
        else acc)
      (pop, stats)

/-- `Environment::apply_resource_scarcity_`: when the population exceeds
the sustainable size `⌊max_population * resource_abundance⌋`, remove the
excess uniformly at random. -/
def applyResourceScarcity (cfg : EnvConfig) (pop : List OrgRecord)
    (stats : EnvStats) (shuffled_ids : List Nat) : List OrgRecord × EnvStats :=
  let sustainable := Int.toNat (((cfg.max_population : ℚ) * cfg.resource_abundance).floor)
  if pop.length > sustainable then
    removeRandomOrganisms pop stats (pop.length - sustainable) shuffled_ids
  else (pop, stats)

/-- `Environment::apply_random_catastrophe_`: with probability 1% remove
10% of the population (at least one organism). -/
def applyRandomCatastrophe (pop : List OrgRecord) (stats : EnvStats)
    (roll : ℚ) (shuffled_ids : List Nat) : List OrgRecord × EnvStats :=
  if roll < 1 / 100 ∧ pop ≠ [] then
    let to_remove := max 1 (Int.toNat (((pop.length : ℚ) * (1 / 10)).floor))
    removeRandomOrganisms pop stats to_remove shuffled_ids
  else (pop, stats)

/-- The sampling loop of `Environment::apply_predation_`: up to
`target * 5` attempts, draw an index from the weighted distribution (the
oracle) and collect distinct victim ids until `target` of them are
found. -/
def selectForRemoval (target : Nat) (fuel : Nat) (indices : List Nat)
    (all_ids : List Nat) (acc : List Nat) : List Nat :=
  match fuel with
  | 0 => acc
  | fuel + 1 =>
    if acc.length < target then
      let idx := indices.headD 0 % all_ids.length
      let oid := all_ids.getD idx 0
      let acc1 := if acc.contains oid then acc else acc ++ [oid]
      selectForRemoval target fuel indices.tail all_ids acc1
    else acc

/-- `Environment::apply_predation_`: remove about 5% of the population
(at least one, never all), choosing victims by inverse-fitness weights;
the weighted draws are oracle-supplied indices. -/
def applyPredation (pop : List OrgRecord) (stats : EnvStats)
    (indices : List Nat) : List OrgRecord × EnvStats :=
  if pop.length < 2 then (pop, stats)
  else
    let to_remove0 := max 1 (Int.toNat (((pop.length : ℚ) * (5 / 100)).floor))
    let to_remove := min to_remove0 (pop.length - 1)
    let all_ids := pop.map (fun o => o.id)
    if all_ids = [] then (pop, stats)
    else
      let selected := selectForRemoval to_remove (to_remove * 5) indices all_ids []
      selected.foldl
        (fun acc oid =>
          if acc.1.any (fun o => o.id = oid) then
            (acc.1.filter (fun o => o.id ≠ oid),
              { acc.2 with total_organisms_died := acc.2.total_organisms_died + 1 })
          else acc)
        (pop, stats)

/-- `Environment::apply_environmental_pressures_unlocked_` (also the body
of the public `applyEnvironmentalPressures`): resource scarcity always,
then catastrophes and predation when enabled. -/
def applyEnvironmentalPressures (cfg : EnvConfig) (pop : List OrgRecord)
    (stats : EnvStats) (rnd : PressRand) : List OrgRecord × EnvStats :=
  let r1 := applyResourceScarcity cfg pop stats rnd.shuffled1
  let r2 :=
    if cfg.enable_random_catastrophes then
      applyRandomCatastrophe r1.1 r1.2 rnd.cat_roll rnd.shuffled2
    else r1
  if cfg.enable_predation then applyPredation r2.1 r2.2 rnd.pred_indices
  else r2

/-- Oracle for the random draws of one iteration of
`Environment::performReproduction`: the immigration-chance roll, the
primitive-count draw for an immigrant, and the crossover/mutation draws
for a sexual offspring. -/
structure RepRand where
  roll : ℚ
  num_prim : Nat
  cross1 : Nat
  cross2 : Nat
  mutRnd : List MutRand
  deriving Repr, DecidableEq, Inhabited

/-- The reproduction loop of `Environment::performReproduction`.  `genB`
is the oracle for `BytecodeGenerator::generateInitialBytecode` (primitive
count to bytecode), `gen` the environment's current generation counter,
`popSize` the (fixed) population size, `fuel` the remaining iteration
budget, `nextId` the process-wide id counter and `acc` the new organisms
accumulated so far. -/
def repGo (cfg : EnvConfig) (genB : Nat → List Nat) (gen : Nat)
    (pool : List OrgRecord) (popSize target : Nat) :
    Nat → Nat → Nat → List RepRand → List OrgRecord → List OrgRecord
  | 0, _, _, _, acc => acc
  | fuel + 1, parent_idx, nextId, rnd, acc =>
    if popSize + acc.length < target then
      let r := rnd.headD default
      if r.roll < cfg.immigration_chance then
        let num_primitives := 5 + r.num_prim % 11
        let offspring := mkOrganism (genB num_primitives) nextId gen
        repGo cfg genB gen pool popSize target fuel parent_idx (nextId + 1) rnd.tail
          (acc ++ [offspring])
      else
        if pool.length < 2 then acc
        else
          let n := pool.length
          let p1_idx := parent_idx % n
          let p2_idx0 := (parent_idx + 1) % n
          let p2_idx := if p1_idx = p2_idx0 then (p2_idx0 + 1) % n else p2_idx0
          let parent1 := pool.getD p1_idx default
          let parent2 := pool.getD p2_idx default
          match reproduceWith parent1 parent2 nextId cfg.mutation_rate cfg.max_mutations
              ⟨r.cross1, r.cross2, r.mutRnd⟩ with
          | none =>
            repGo cfg genB gen pool popSize target fuel (parent_idx + 1) nextId rnd.tail acc
          | some offspring =>
            repGo cfg genB gen pool popSize target fuel (parent_idx + 1) (nextId + 1) rnd.tail
              (acc ++ [offspring])
    else acc

/-- `Environment::performReproduction`: grow the population towards
`min max_population (max min_population ⌈size * 1.1⌉)` under a safety
iteration cap of ten times the target; returns the extended population
together with the list of newly created organisms. -/
def performReproduction (cfg : EnvConfig) (genB : Nat → List Nat) (gen : Nat)
    (pop : List OrgRecord) (pool : List OrgRecord) (nextId : Nat)
    (rnd : List RepRand) : List OrgRecord × List OrgRecord :=
  let target := min cfg.max_population
    (max cfg.min_population (Int.toNat ((pop.length : ℚ) * (11 / 10)).ceil))
  let new_organisms := repGo cfg genB gen pool pop.length target (10 * target) 0 nextId rnd []
  (pop ++ new_organisms, new_organisms)

/-- The environment configuration of spec scenario S4: aging, competition,
predation and catastrophes disabled and `resource_abundance = 10`.  The
scenario's `selection_pressure = 0.5` has no counterpart field in
`Environment::Config` and cannot be set. -/
def cfgS4 : EnvConfig :=
  { max_population := 20
    initial_population := 10
    initial_bytecode_size := 64
    min_population := 2
    elite_count := 2
    mutation_rate := 1 / 10
    max_mutations := 3
    resource_abundance := 10
    generation_time_ms := 100
    enable_aging := false
    max_age_ms := 60000
    enable_competition := false
    competition_intensity := 1 / 2
    enable_cooperation := false
    cooperation_bonus := 1 / 10
    enable_predation := false
    enable_random_catastrophes := false
    fitness_weight_symmetry := 7 / 10
    fitness_weight_variation := 3 / 10
    immigration_chance := 1 / 100 }

/-- The S4 population: five organisms of fitness 9/10 and five of
fitness 1/10. -/
def popS4 : List OrgRecord :=
  [⟨1, 0, 0, 9 / 10, [0xFF]⟩, ⟨2, 0, 0, 9 / 10, [0xFF]⟩, ⟨3, 0, 0, 9 / 10, [0xFF]⟩,
   ⟨4, 0, 0, 9 / 10, [0xFF]⟩, ⟨5, 0, 0, 9 / 10, [0xFF]⟩, ⟨6, 0, 0, 1 / 10, [0xFF]⟩,
   ⟨7, 0, 0, 1 / 10, [0xFF]⟩, ⟨8, 0, 0, 1 / 10, [0xFF]⟩, ⟨9, 0, 0, 1 / 10, [0xFF]⟩,
   ⟨10, 0, 0, 1 / 10, [0xFF]⟩]

/-- A small concrete environment exercising the checkpoint round-trip. -/
def envC5 : Env :=
  { config :=
      { max_population := 5
        initial_population := 1
        initial_bytecode_size := 8
        min_population := 1
        elite_count := 1
        mutation_rate := 1 / 10
        max_mutations := 1
        resource_abundance := 1
        generation_time_ms := 100
        enable_aging := false
        max_age_ms := 60000
        enable_competition := false
        competition_intensity := 1 / 2
        enable_cooperation := false
        cooperation_bonus := 1 / 10
        enable_predation := false
        enable_random_catastrophes := false
        fitness_weight_symmetry := 7 / 10
        fitness_weight_variation := 3 / 10
        immigration_chance := 1 / 100 }
    vm_config := ⟨8, 8, 16, 4, 10⟩
    analyzer_config := ⟨true, true, true, true, true, 1/4, 1/4, 1/4, 1/4, 1/10, 64, 1/10, true⟩
    population := [⟨1, 0, 0, 0, [0xFF]⟩]
    stats := ⟨7, 1, 5, 0, 0, 0, 0, 0, 0, 9, 2⟩
    rng_state := "rng" }

/-- A concrete configuration with certain immigration, exercising the
reproduction loop. -/
def cfgC10 : EnvConfig :=
  { max_population := 5
    initial_population := 1
    initial_bytecode_size := 8
    min_population := 1
    elite_count := 1
    mutation_rate := 1
    max_mutations := 1
    resource_abundance := 1
    generation_time_ms := 100
    enable_aging := false
    max_age_ms := 60000
    enable_competition := false
    competition_intensity := 1 / 2
    enable_cooperation := false
    cooperation_bonus := 1 / 10
    enable_predation := false
    enable_random_catastrophes := false
    fitness_weight_symmetry := 7 / 10
    fitness_weight_variation := 3 / 10
    immigration_chance := 1 }

/-! ### Step-level facts about the instruction interpreter -/

theorem drawGuardStats_executed (st : VMState) (stats : ExecutionStats) :
    (drawGuardStats st stats).instructions_executed = stats.instructions_executed := by
  unfold drawGuardStats; split <;> rfl

theorem executeBinaryOp_executed (cfg : VMConfig) (f : Nat → Nat → Int)
    (err : Option String) (st : VMState) (stats : ExecutionStats) (rng : List Nat) :
    ((executeBinaryOp cfg f err st stats rng).2.2.1).instructions_executed =
      stats.instructions_executed := by
  unfold executeBinaryOp
  repeat' split
  all_goals rfl

theorem executeUnaryOp_executed (cfg : VMConfig) (f : Nat → Int)
    (st : VMState) (stats : ExecutionStats) (rng : List Nat) :
    ((executeUnaryOp cfg f st stats rng).2.2.1).instructions_executed =
      stats.instructions_executed := by
  unfold executeUnaryOp
  repeat' split
  all_goals rfl

theorem executeSetColor_executed (setter : VMState → Nat → VMState)
    (st : VMState) (stats : ExecutionStats) (rng : List Nat) :
    ((executeSetColor setter st stats rng).2.2.1).instructions_executed =
      stats.instructions_executed := by
  unfold executeSetColor
  repeat' split
  all_goals rfl

theorem executeInstruction_executed (cfg : VMConfig) (op operand : Nat)
    (st : VMState) (stats : ExecutionStats) (rng : List Nat) :
    ((executeInstruction cfg op operand st stats rng).2.2.1).instructions_executed =
      stats.instructions_executed := by
  unfold executeInstruction
  repeat' split
  all_goals try apply executeBinaryOp_executed
  all_goals try apply executeUnaryOp_executed
  all_goals try apply executeSetColor_executed
  all_goals simp [drawGuardStats_executed]

theorem toByte_lt (z : Int) : toByte z < 256 := by
  unfold toByte
  have h1 := Int.emod_nonneg z (by norm_num : (256 : Int) ≠ 0)
  have h2 := Int.emod_lt_of_pos z (by norm_num : (0 : Int) < 256)
  omega

theorem popStack_eq_some (st : VMState) (v : Nat) (st' : VMState)
    (h : popStack st = some (v, st')) :
    st.stack = v :: st'.stack ∧ st' = { st with stack := st'.stack } := by
  unfold popStack at h
  cases hs : st.stack with
  | nil => rw [hs] at h; simp at h
  | cons w rest =>
    rw [hs] at h
    simp only [Option.some_inj, Prod.mk.injEq] at h
    obtain ⟨hv, hst⟩ := h
    subst hv; subst hst
    simp

theorem pushStack_eq_some (cfg : VMConfig) (v : Nat) (st st' : VMState)
    (h : pushStack cfg v st = some st') :
    st' = { st with stack := v :: st.stack } := by
  unfold pushStack at h
  split at h
  · simp at h
  · simp only [Option.some_inj] at h; exact h.symm

theorem popStack_some_iff {st : VMState} {v : Nat} {st' : VMState} :
    popStack st = some (v, st') ↔
      st.stack = v :: st'.stack ∧ st'.memory = st.memory ∧ st'.pc = st.pc ∧
      st'.x = st.x ∧ st'.y = st.y ∧ st'.color_r = st.color_r ∧
      st'.color_g = st.color_g ∧ st'.color_b = st.color_b ∧ st'.running = st.running := by
  unfold popStack
  cases hs : st.stack with
  | nil => simp [hs]
  | cons w rest =>
    simp only [Option.some_inj, Prod.mk.injEq, hs]
    constructor
    · rintro ⟨hv, hst⟩
      subst hv; subst hst
      simp
    · rintro ⟨h1, h2, h3, h4, h5, h6, h7, h8, h9⟩
      obtain ⟨hw, hrest⟩ := List.cons.injEq w rest v st'.stack ▸ h1
      cases st'
      simp_all

theorem peekStack_some_iff {st : VMState} {v : Nat} :
    peekStack st = some v ↔ ∃ rest, st.stack = v :: rest := by
  unfold peekStack
  cases hs : st.stack with
  | nil => simp [hs]
  | cons w rest =>
    simp only [Option.some_inj, hs]
    constructor
    · rintro h; exact ⟨rest, by rw [h]⟩
    · rintro ⟨r, hr⟩
      have := (List.cons.injEq w rest v r) ▸ hr
      exact this.1

theorem lt_256_of_exists_cons {l : List Nat} {v : Nat} (hl : ∀ w ∈ l, w < 256)
    (h : ∃ rest, l = v :: rest) : v < 256 := by
  obtain ⟨rest, hrest⟩ := h
  exact hl v (hrest ▸ List.mem_cons_self v rest)

theorem headD_lt_256 {l : List Nat} (hl : ∀ v ∈ l, v < 256) :
    l.head?.getD 0 < 256 := by
  cases l with
  | nil => simp
  | cons w rest => exact hl w (by simp)

theorem getElem_getD_lt_256 {l : List Nat} (hl : ∀ v ∈ l, v < 256) (i : Nat) :
    l[i]?.getD 0 < 256 := by
  rcases hx : l[i]? with _ | v
  · simp
  · have hv : v ∈ l := by
      have := List.getElem?_eq_some.mp hx
      obtain ⟨hlt, heq⟩ := this
      exact heq ▸ List.getElem_mem hlt
    simpa using hl v hv

theorem pushStack_some_iff {cfg : VMConfig} {v : Nat} {st st' : VMState} :
    pushStack cfg v st = some st' ↔
      st.stack.length < cfg.stack_size ∧ st' = { st with stack := v :: st.stack } := by
  unfold pushStack
  split
  · simp; omega
  · simp only [Option.some_inj]
    constructor
    · intro h; exact ⟨by omega, h.symm⟩
    · intro h; exact h.2.symm

theorem popN_some_iff {n : Nat} {st : VMState} {p : List Nat × VMState} :
    popN n st = some p ↔
      ¬ st.stack.length < n ∧ p.1 = st.stack.take n ∧
        p.2 = { st with stack := st.stack.drop n } := by
  unfold popN
  split
  · simp_all
  · simp only [Option.some_inj]
    constructor
    · rintro h1; rw [← h1]; exact ⟨by assumption, rfl, rfl⟩
    · rintro ⟨h1, h2, h3⟩
      have : p = (p.1, p.2) := rfl
      rw [this, h2, h3]

/-- Invariant of reachable VM states: every stack and memory byte, and the
cursor coordinates, are genuine `uint8_t`/operand values below 256. -/
def WFState (st : VMState) : Prop :=
  (∀ v ∈ st.stack, v < 256) ∧ (∀ v ∈ st.memory, v < 256) ∧ st.x < 256 ∧ st.y < 256

theorem getD_lt_256 {l : List Nat} (hl : ∀ v ∈ l, v < 256) (i : Nat) :
    l.getD i 0 < 256 := by
  rcases hx : l[i]? with _ | v
  · simp [List.getD, hx]
  · have hv : v ∈ l := by
      have := List.getElem?_eq_some.mp hx
      obtain ⟨hlt, heq⟩ := this
      exact heq ▸ List.getElem_mem hlt
    have := hl v hv
    simp [List.getD, hx, this]

theorem msg_ne_1 : ("Stack underflow" : String) ≠ "" := by decide
theorem msg_ne_2 : ("Stack overflow" : String) ≠ "" := by decide
theorem msg_ne_3 : ("Division by zero" : String) ≠ "" := by decide
theorem msg_ne_4 : ("Modulo by zero" : String) ≠ "" := by decide
theorem msg_ne_5 : ("Memory access out of bounds" : String) ≠ "" := by decide
theorem msg_ne_6 : ("Stack underflow for DRAW_LINE" : String) ≠ "" := by decide
theorem msg_ne_7 : ("Stack underflow for DRAW_BEZIER_CURVE" : String) ≠ "" := by decide
theorem msg_ne_8 : ("Stack underflow for DRAW_TRIANGLE" : String) ≠ "" := by decide

theorem msg_ne_unknown (op : Nat) : "Unknown opcode: " ++ toString op ≠ "" := by
  intro hcontra
  have hlen := congrArg String.length hcontra
  rw [String.length_append] at hlen
  have h16 : ("Unknown opcode: " : String).length = 16 := by decide
  simp [h16] at hlen

theorem executeBinaryOp_state (cfg : VMConfig) (f : Nat → Nat → Int)
    (err : Option String) (st : VMState) (stats : ExecutionStats) (rng : List Nat) :
    ((executeBinaryOp cfg f err st stats rng).2.1).memory = st.memory ∧
    ((executeBinaryOp cfg f err st stats rng).2.1).running = st.running ∧
    ((executeBinaryOp cfg f err st stats rng).2.1).x = st.x ∧
    ((executeBinaryOp cfg f err st stats rng).2.1).y = st.y := by
  unfold executeBinaryOp
  repeat' split
  all_goals simp_all [popStack_some_iff, pushStack_some_iff]

theorem executeUnaryOp_state (cfg : VMConfig) (f : Nat → Int)
    (st : VMState) (stats : ExecutionStats) (rng : List Nat) :
    ((executeUnaryOp cfg f st stats rng).2.1).memory = st.memory ∧
    ((executeUnaryOp cfg f st stats rng).2.1).running = st.running ∧
    ((executeUnaryOp cfg f st stats rng).2.1).x = st.x ∧
    ((executeUnaryOp cfg f st stats rng).2.1).y = st.y := by
  unfold executeUnaryOp
  repeat' split
  all_goals simp_all [popStack_some_iff, pushStack_some_iff]

theorem executeBinaryOp_msg (cfg : VMConfig) (f : Nat → Nat → Int)
    (msg0 : String) (hmsg0 : msg0 ≠ "")
    (err : Option String) (herr : err = none ∨ err = some msg0)
    (st : VMState) (stats : ExecutionStats) (rng : List Nat) :
    (((executeBinaryOp cfg f err st stats rng).1 = true →
        ((executeBinaryOp cfg f err st stats rng).2.2.1).error_message =
          stats.error_message) ∧
     ((executeBinaryOp cfg f err st stats rng).1 = false →
        ((executeBinaryOp cfg f err st stats rng).2.2.1).error_message ≠ "")) := by
  unfold executeBinaryOp
  rcases herr with herr | herr <;> subst herr
  all_goals repeat' split
  all_goals simp_all [msg_ne_1, msg_ne_2]

theorem executeUnaryOp_msg (cfg : VMConfig) (f : Nat → Int)
    (st : VMState) (stats : ExecutionStats) (rng : List Nat) :
    (((executeUnaryOp cfg f st stats rng).1 = true →
        ((executeUnaryOp cfg f st stats rng).2.2.1).error_message = stats.error_message) ∧
     ((executeUnaryOp cfg f st stats rng).1 = false →
        ((executeUnaryOp cfg f st stats rng).2.2.1).error_message ≠ "")) := by
  unfold executeUnaryOp
  repeat' split
  all_goals simp_all [msg_ne_1, msg_ne_2]

theorem executeSetColor_state (setter : VMState → Nat → VMState)
    (hset : ∀ s v, (setter s v).memory = s.memory ∧ (setter s v).running = s.running ∧
      (setter s v).x = s.x ∧ (setter s v).y = s.y ∧ (setter s v).stack = s.stack)
    (st : VMState) (stats : ExecutionStats) (rng : List Nat) :
    ((executeSetColor setter st stats rng).2.1).memory = st.memory ∧
    ((executeSetColor setter st stats rng).2.1).running = st.running ∧
    ((executeSetColor setter st stats rng).2.1).x = st.x ∧
    ((executeSetColor setter st stats rng).2.1).y = st.y := by
  unfold executeSetColor
  repeat' split
  all_goals try simp_all
  next v st1 heq =>
    obtain ⟨h1, h2, h3, h4, h5⟩ := hset st1 v
    rw [popStack_some_iff] at heq
    simp_all

theorem executeSetColor_msg (setter : VMState → Nat → VMState)
    (st : VMState) (stats : ExecutionStats) (rng : List Nat) :
    (((executeSetColor setter st stats rng).1 = true →
        ((executeSetColor setter st stats rng).2.2.1).error_message = stats.error_message) ∧
     ((executeSetColor setter st stats rng).1 = false →
        ((executeSetColor setter st stats rng).2.2.1).error_message ≠ "")) := by
  unfold executeSetColor
  repeat' split
  all_goals simp_all [msg_ne_1]

theorem executeInstruction_memlen (cfg : VMConfig) (op operand : Nat)
    (st : VMState) (stats : ExecutionStats) (rng : List Nat) :
    ((executeInstruction cfg op operand st stats rng).2.1).memory.length =
      st.memory.length := by
  unfold executeInstruction
  split
  all_goals first
    | rfl
    | exact congrArg List.length (executeBinaryOp_state _ _ _ _ _ _).1
    | exact congrArg List.length (executeUnaryOp_state _ _ _ _ _).1
    | (unfold executeSetColor
       repeat' split
       all_goals simp_all [popStack_some_iff])
    | (repeat' split
       all_goals simp_all [popStack_some_iff, pushStack_some_iff, peekStack_some_iff,
         popN_some_iff, List.length_set])

theorem executeInstruction_halt (cfg : VMConfig) (operand : Nat)
    (st : VMState) (stats : ExecutionStats) (rng : List Nat) :
    executeInstruction cfg 0xFF operand st stats rng =
      (false, { st with running := false }, stats, rng) := rfl

theorem executeInstruction_running_true (cfg : VMConfig) (op operand : Nat)
    (st : VMState) (stats : ExecutionStats) (rng : List Nat) :
    (executeInstruction cfg op operand st stats rng).1 = true →
      ((executeInstruction cfg op operand st stats rng).2.1).running = st.running := by
  unfold executeInstruction
  split
  all_goals intro ht
  all_goals first
    | rfl
    | exact Bool.noConfusion ht
    | exact (executeBinaryOp_state _ _ _ _ _ _).2.1
    | exact (executeUnaryOp_state _ _ _ _ _).2.1
    | (unfold executeSetColor
       repeat' split
       all_goals simp_all [popStack_some_iff])
    | (revert ht
       repeat' split
       all_goals intro ht
       all_goals simp_all [popStack_some_iff, pushStack_some_iff, peekStack_some_iff,
         popN_some_iff])

theorem executeInstruction_running_false (cfg : VMConfig) (op operand : Nat)
    (st : VMState) (stats : ExecutionStats) (rng : List Nat) :
    (executeInstruction cfg op operand st stats rng).1 = false →
      ((executeInstruction cfg op operand st stats rng).2.1).running = st.running ∨
        (op = 0xFF ∧ ((executeInstruction cfg op operand st stats rng).2.1).running = false) := by
  unfold executeInstruction
  split
  all_goals intro hf
  all_goals first
    | exact Bool.noConfusion hf
    | (left; rfl)
    | (right; exact ⟨rfl, rfl⟩)
    | (left; exact (executeBinaryOp_state _ _ _ _ _ _).2.1)
    | (left; exact (executeUnaryOp_state _ _ _ _ _).2.1)
    | (left
       unfold executeSetColor
       repeat' split
       all_goals simp_all [popStack_some_iff])
    | (left
       revert hf
       repeat' split
       all_goals intro hf
       all_goals simp_all [popStack_some_iff, pushStack_some_iff, peekStack_some_iff,
         popN_some_iff])

theorem drawGuardStats_of_le {st : VMState} {stats : ExecutionStats}
    (h1 : st.x ≤ intMax) (h2 : st.y ≤ intMax) : drawGuardStats st stats = stats := by
  unfold drawGuardStats
  split
  · omega
  · rfl

theorem executeInstruction_msg_true (cfg : VMConfig) (op operand : Nat)
    (st : VMState) (stats : ExecutionStats) (rng : List Nat)
    (hx : st.x ≤ intMax) (hy : st.y ≤ intMax) :
    (executeInstruction cfg op operand st stats rng).1 = true →
      ((executeInstruction cfg op operand st stats rng).2.2.1).error_message =
        stats.error_message := by
  unfold executeInstruction
  split
  all_goals intro ht
  all_goals first
    | rfl
    | exact Bool.noConfusion ht
    | exact (executeBinaryOp_msg _ _ "Stack underflow" msg_ne_1 none (Or.inl rfl) _ _ _).1 ht
    | exact (executeBinaryOp_msg _ _ "Division by zero" msg_ne_3 _ (Or.inr rfl) _ _ _).1 ht
    | exact (executeBinaryOp_msg _ _ "Modulo by zero" msg_ne_4 _ (Or.inr rfl) _ _ _).1 ht
    | exact (executeUnaryOp_msg _ _ _ _ _).1 ht
    | exact (executeSetColor_msg _ _ _ _).1 ht
    | (revert ht
       repeat' split
       all_goals intro ht
       all_goals simp_all [popStack_some_iff, pushStack_some_iff, peekStack_some_iff,
         popN_some_iff, drawGuardStats_of_le])

theorem executeInstruction_msg_false (cfg : VMConfig) (op operand : Nat)
    (st : VMState) (stats : ExecutionStats) (rng : List Nat) :
    (executeInstruction cfg op operand st stats rng).1 = false →
      op = 0xFF ∨
        ((executeInstruction cfg op operand st stats rng).2.2.1).error_message ≠ "" := by
  unfold executeInstruction
  split
  all_goals intro hf
  all_goals first
    | exact Bool.noConfusion hf
    | (left; rfl)
    | (right; exact (executeBinaryOp_msg _ _ "Stack underflow" msg_ne_1 none (Or.inl rfl) _ _ _).2 hf)
    | (right; exact (executeBinaryOp_msg _ _ "Division by zero" msg_ne_3 _ (Or.inr rfl) _ _ _).2 hf)
    | (right; exact (executeBinaryOp_msg _ _ "Modulo by zero" msg_ne_4 _ (Or.inr rfl) _ _ _).2 hf)
    | (right; exact (executeUnaryOp_msg _ _ _ _ _).2 hf)
    | (right; exact (executeSetColor_msg _ _ _ _).2 hf)
    | (right; exact msg_ne_unknown _)
    | (right
       revert hf
       repeat' split
       all_goals intro hf
       all_goals simp_all [popStack_some_iff, pushStack_some_iff, peekStack_some_iff,
         popN_some_iff, msg_ne_1, msg_ne_2, msg_ne_5, msg_ne_6, msg_ne_7, msg_ne_8])

theorem executeBinaryOp_wf (cfg : VMConfig) (f : Nat → Nat → Int)
    (err : Option String) (st : VMState) (stats : ExecutionStats) (rng : List Nat)
    (hwf : WFState st) : WFState ((executeBinaryOp cfg f err st stats rng).2.1) := by
  obtain ⟨hstk, hmem, hx, hy⟩ := hwf
  unfold executeBinaryOp
  repeat' split
  all_goals simp_all [WFState, popStack_some_iff, pushStack_some_iff,
    List.forall_mem_cons, toByte_lt]

theorem executeUnaryOp_wf (cfg : VMConfig) (f : Nat → Int)
    (st : VMState) (stats : ExecutionStats) (rng : List Nat)
    (hwf : WFState st) : WFState ((executeUnaryOp cfg f st stats rng).2.1) := by
  obtain ⟨hstk, hmem, hx, hy⟩ := hwf
  unfold executeUnaryOp
  repeat' split
  all_goals simp_all [WFState, popStack_some_iff, pushStack_some_iff,
    List.forall_mem_cons, toByte_lt]

theorem executeInstruction_wf (cfg : VMConfig) (op operand : Nat)
    (st : VMState) (stats : ExecutionStats) (rng : List Nat)
    (hoperand : operand < 256) (hwf : WFState st) :
    WFState ((executeInstruction cfg op operand st stats rng).2.1) := by
  obtain ⟨hstk, hmem, hx, hy⟩ := hwf
  unfold executeInstruction
  split
  all_goals first
    | exact executeBinaryOp_wf _ _ _ _ _ _ ⟨hstk, hmem, hx, hy⟩
    | exact executeUnaryOp_wf _ _ _ _ _ ⟨hstk, hmem, hx, hy⟩
    | (unfold executeSetColor
       repeat' split
       all_goals simp_all [WFState, popStack_some_iff, List.forall_mem_cons])
    | (repeat' split
       all_goals
         simp_all [WFState, popStack_some_iff, pushStack_some_iff, peekStack_some_iff,
           popN_some_iff, List.forall_mem_cons, toByte_lt, Nat.mod_lt]
       all_goals try intro v hv
       all_goals
         first
         | exact getD_lt_256 hmem _
         | (rcases List.mem_or_eq_of_mem_set hv with hmem2 | hveq
            · exact hmem v hmem2
            · omega)
         | (exact hstk v (List.mem_of_mem_drop hv))
         | (exact hstk v (List.mem_of_mem_take hv))
         | (exact lt_256_of_exists_cons hstk (by assumption))
         | (exact getElem_getD_lt_256 hmem _)
         | omega)

/-! ### Loop-level facts and the execution claims -/

theorem executionLoop_executed_le (cfg : VMConfig) :
    ∀ (fuel : Nat) (st : VMState) (stats : ExecutionStats) (rng : List Nat),
    stats.instructions_executed ≤ cfg.max_instructions →
    ((executionLoop cfg fuel st stats rng).2.1).instructions_executed ≤
      cfg.max_instructions := by
  intro fuel
  induction fuel with
  | zero =>
    intro st stats rng h
    simpa [executionLoop] using h
  | succ n ih =>
    intro st stats rng h
    rw [executionLoop]
    split
    · simpa using h
    split
    · simpa using h
    split
    · simpa using h
    dsimp only
    split <;> split
    all_goals first
      | (simpa [executeInstruction_executed] using h)
      | (apply ih; simp [executeInstruction_executed]; omega)

/-- Claim C2: for every `execute(bytecode)` call the VM's instruction
counter never exceeds the configured `max_instructions` budget — both as a
loop invariant (any loop entry whose counter is within budget exits within
budget) and for the statistics returned by `execute`. -/
theorem claim_C2_instruction_budget :
    (∀ (cfg : VMConfig) (fuel : Nat) (st : VMState) (stats : ExecutionStats)
       (rng : List Nat),
       stats.instructions_executed ≤ cfg.max_instructions →
       ((executionLoop cfg fuel st stats rng).2.1).instructions_executed ≤
         cfg.max_instructions) ∧
    (∀ (cfg : VMConfig) (code rng : List Nat),
       ((execute cfg code rng).2.1).instructions_executed ≤ cfg.max_instructions) := by
  constructor
  · exact fun cfg => executionLoop_executed_le cfg
  · intro cfg code rng
    unfold execute
    exact executionLoop_executed_le cfg _ _ _ _ (by simp [resetStats])

/-- Witness for claim C2 at a concrete configuration, program and loop
entry. -/
theorem claim_C2_instruction_budget_witness :
    ((executionLoop ⟨8, 8, 16, 4, 10⟩ 3
        { stack := [], memory := [1, 7, 255], pc := 0, x := 0, y := 0,
          color_r := 0, color_g := 0, color_b := 0, running := true }
        resetStats []).2.1).instructions_executed ≤ 10 ∧
    ((execute ⟨8, 8, 16, 4, 10⟩ [1, 7, 255] []).2.1).instructions_executed ≤ 10 :=
  ⟨claim_C2_instruction_budget.1 ⟨8, 8, 16, 4, 10⟩ 3 _ resetStats [] (by decide),
   claim_C2_instruction_budget.2 ⟨8, 8, 16, 4, 10⟩ [1, 7, 255] []⟩

theorem executionLoop_spec (cfg : VMConfig) :
    ∀ (fuel : Nat) (st : VMState) (stats : ExecutionStats) (rng : List Nat),
    WFState st →
    st.running = true →
    stats.error_message = "" →
    cfg.max_instructions < fuel + stats.instructions_executed →
    ((executionLoop cfg fuel st stats rng).2.1.halted_normally =
        !(executionLoop cfg fuel st stats rng).1.running) ∧
    (((executionLoop cfg fuel st stats rng).1.running = false ∧
        (executionLoop cfg fuel st stats rng).2.1.error_message = "") ∨
     ((executionLoop cfg fuel st stats rng).1.running = true ∧
        (executionLoop cfg fuel st stats rng).2.1.error_message = "" ∧
        ((executionLoop cfg fuel st stats rng).1.pc ≥
            (executionLoop cfg fuel st stats rng).1.memory.length ∨
         (executionLoop cfg fuel st stats rng).2.1.instructions_executed ≥
            cfg.max_instructions)) ∨
     ((executionLoop cfg fuel st stats rng).1.running = true ∧
        (executionLoop cfg fuel st stats rng).2.1.error_message ≠ "")) := by
  intro fuel
  induction fuel with
  | zero =>
    intro st stats rng hwf hrun hmsg hfuel
    refine ⟨by simp [executionLoop], ?_⟩
    right; left
    simp only [executionLoop]
    exact ⟨hrun, hmsg, Or.inr (by omega)⟩
  | succ n ih =>
    intro st stats rng hwf hrun hmsg hfuel
    rw [executionLoop]
    split
    · simp_all
    split
    · refine ⟨by simp, ?_⟩
      right; left
      refine ⟨hrun, hmsg, Or.inl (by simp; omega)⟩
    split
    · refine ⟨by simp, ?_⟩
      right; left
      refine ⟨hrun, hmsg, Or.inr (by simp; omega)⟩
    dsimp only
    set opnd := (if st.pc + 1 < st.memory.length then st.memory.getD (st.pc + 1) 0 else 0)
      with hopnd_def
    have hopnd : opnd < 256 := by
      rw [hopnd_def]
      split
      · exact getD_lt_256 hwf.2.1 _
      · norm_num
    split
    · -- the instruction succeeded: recurse
      rename_i hr
      have hwf1 := executeInstruction_wf cfg (st.memory.getD st.pc 0) _ st stats rng hopnd hwf
      have hrun1 := executeInstruction_running_true cfg (st.memory.getD st.pc 0) _ st stats rng hr
      have hmsg1 := executeInstruction_msg_true cfg (st.memory.getD st.pc 0) _ st stats rng
        (by have := hwf.2.2.1; unfold intMax; omega)
        (by have := hwf.2.2.2; unfold intMax; omega) hr
      have hexe := executeInstruction_executed cfg (st.memory.getD st.pc 0) opnd st stats rng
      refine ih _ _ _ hwf1 (by rw [hrun1, hrun]) (hmsg1.trans hmsg) ?_
      show cfg.max_instructions < n +
        ((executeInstruction cfg (st.memory.getD st.pc 0) opnd st stats rng).2.2.1.instructions_executed + 1)
      rw [hexe]
      omega
    · -- the instruction failed: the loop exits
      rename_i hr
      rw [Bool.not_eq_true] at hr
      refine ⟨by simp, ?_⟩
      rcases executeInstruction_msg_false cfg (st.memory.getD st.pc 0) _ st stats rng hr with
        hop | hmessage
      · left
        rw [hop, executeInstruction_halt]
        exact ⟨rfl, hmsg⟩
      · rcases executeInstruction_running_false cfg (st.memory.getD st.pc 0) _ st stats rng hr with
          hrun1 | ⟨hop, _⟩
        · right; right
          exact ⟨hrun1.trans hrun, hmessage⟩
        · exfalso
          rw [hop, executeInstruction_halt] at hmessage
          exact hmessage hmsg

/-- Claim C9: `halted_normally` is true exactly when the run ended by
executing HALT (the only opcode that clears the running flag); a run that
stops because the program counter passed the end of memory or the budget
was exhausted reports `halted_normally = false` with an empty error
message, and a fatal execution error reports `halted_normally = false`
with a non-empty error message. -/
theorem claim_C9_halt_characterization (cfg : VMConfig) (code rng : List Nat)
    (hcode : ∀ b ∈ code, b < 256) :
    ((execute cfg code rng).2.1.halted_normally = !(execute cfg code rng).1.running) ∧
    (((execute cfg code rng).1.running = false ∧
        (execute cfg code rng).2.1.halted_normally = true ∧
        (execute cfg code rng).2.1.error_message = "") ∨
     ((execute cfg code rng).1.running = true ∧
        (execute cfg code rng).2.1.halted_normally = false ∧
        (execute cfg code rng).2.1.error_message = "" ∧
        ((execute cfg code rng).1.pc ≥ (execute cfg code rng).1.memory.length ∨
         (execute cfg code rng).2.1.instructions_executed ≥ cfg.max_instructions)) ∨
     ((execute cfg code rng).1.running = true ∧
        (execute cfg code rng).2.1.halted_normally = false ∧
        (execute cfg code rng).2.1.error_message ≠ "")) ∧
    (∀ (op operand : Nat) (st : VMState) (stats : ExecutionStats) (rng2 : List Nat),
      st.running = true →
      (((executeInstruction cfg op operand st stats rng2).2.1).running = false ↔
        op = 0xFF)) := by
  have hwf0 : WFState (initialState cfg code) := by
    refine ⟨by simp [initialState], ?_, by simp [initialState], by simp [initialState]⟩
    intro v hv
    simp only [initialState, List.mem_append] at hv
    rcases hv with hv | hv
    · exact hcode v (List.mem_of_mem_take hv)
    · have := List.eq_of_mem_replicate hv
      omega
  have hspec := executionLoop_spec cfg (cfg.max_instructions + 1) (initialState cfg code)
    resetStats rng hwf0 rfl rfl (by simp [resetStats])
  obtain ⟨h1, h2⟩ := hspec
  unfold execute
  refine ⟨h1, ?_, ?_⟩
  · rcases h2 with ⟨ha, hb⟩ | ⟨ha, hb, hc⟩ | ⟨ha, hb⟩
    · left; exact ⟨ha, by rw [h1, ha]; rfl, hb⟩
    · right; left; exact ⟨ha, by rw [h1, ha]; rfl, hb, hc⟩
    · right; right; exact ⟨ha, by rw [h1, ha]; rfl, hb⟩
  · intro op operand st stats rng2 hrunning
    constructor
    · intro hrf
      cases hb : (executeInstruction cfg op operand st stats rng2).1
      · rcases executeInstruction_running_false cfg op operand st stats rng2 hb with
          hpres | ⟨hop, _⟩
        · rw [hpres, hrunning] at hrf; exact absurd hrf (by simp)
        · exact hop
      · have hpres := executeInstruction_running_true cfg op operand st stats rng2 hb
        rw [hpres, hrunning] at hrf; exact absurd hrf (by simp)
    · intro hop
      subst hop
      rw [executeInstruction_halt]

/-- Witness for claim C9 at a concrete configuration and program. -/
theorem claim_C9_halt_characterization_witness :
    (execute ⟨8, 8, 16, 4, 10⟩ [255] []).2.1.halted_normally =
      !(execute ⟨8, 8, 16, 4, 10⟩ [255] []).1.running :=
  (claim_C9_halt_characterization ⟨8, 8, 16, 4, 10⟩ [255] [] (by decide)).1

theorem toByte_natCast (n : Nat) : toByte (n : Int) = n % 256 := by
  unfold toByte; omega

theorem toByte_mul (a b : Nat) : toByte ((a : Int) * b) = a * b % 256 := by
  rw [show ((a : Int) * b) = ((a * b : Nat) : Int) by push_cast; ring]
  exact toByte_natCast _

theorem toByte_div (a b : Nat) : toByte ((a : Int) / b) = a / b % 256 := by
  rw [show ((a : Int) / b) = ((a / b : Nat) : Int) from (Int.ofNat_div a b).symm]
  exact toByte_natCast _

theorem toByte_emod (a b : Nat) : toByte ((a : Int) % b) = a % b % 256 := by
  rw [show ((a : Int) % b) = ((a % b : Nat) : Int) from (Int.ofNat_mod a b).symm]
  exact toByte_natCast _

theorem executeBinaryOp_ok (cfg : VMConfig) (f : Nat → Nat → Int)
    (err : Option String) (st : VMState) (stats : ExecutionStats) (rng : List Nat)
    (a b : Nat) (rest : List Nat)
    (hstack : st.stack = b :: a :: rest)
    (hlen : st.stack.length ≤ cfg.stack_size)
    (hb : err = none ∨ b ≠ 0) :
    executeBinaryOp cfg f err st stats rng =
      (true, { st with stack := toByte (f a b) :: rest, pc := st.pc + 1 },
        { stats with stack_operations := stats.stack_operations + 3 }, rng) := by
  have hlt : ¬ rest.length ≥ cfg.stack_size := by
    rw [hstack] at hlen; simp at hlen; omega
  rcases hb with hb | hb
  · subst hb
    simp [executeBinaryOp, popStack, pushStack, hstack, hlt]
  · rcases herr : err with _ | msg
    · simp [executeBinaryOp, popStack, pushStack, hstack, hlt]
    · simp [executeBinaryOp, popStack, pushStack, hstack, hlt, hb]

theorem executeBinaryOp_zero (cfg : VMConfig) (f : Nat → Nat → Int)
    (msg : String) (st : VMState) (stats : ExecutionStats) (rng : List Nat)
    (a : Nat) (rest : List Nat)
    (hstack : st.stack = 0 :: a :: rest) :
    executeBinaryOp cfg f (some msg) st stats rng =
      (false, { st with stack := rest },
        { stats with error_message := msg }, rng) := by
  simp [executeBinaryOp, popStack, hstack]

/-- Claim C1: every binary arithmetic/bitwise instruction pops `b` (top of
stack), then `a`, and pushes the 8-bit truncated `a OP b`; DIV and MOD
abort on `b = 0` with error messages "Division by zero" and
"Modulo by zero"; and the three concrete programs of scenario S2 behave as
stated (stack `[30]`, stack `[10]`, and a division-by-zero abort) under the
default VM configuration. -/
theorem claim_C1_binary_ops :
    (∀ (cfg : VMConfig) (operand : Nat) (st : VMState) (stats : ExecutionStats)
       (rng : List Nat) (a b : Nat) (rest : List Nat),
      st.stack = b :: a :: rest →
      st.stack.length ≤ cfg.stack_size →
      (executeInstruction cfg 0x03 operand st stats rng =
         (true, { st with stack := (a + b) % 256 :: rest, pc := st.pc + 1 },
           { stats with stack_operations := stats.stack_operations + 3 }, rng)) ∧
      (executeInstruction cfg 0x04 operand st stats rng =
         (true, { st with stack := (((a : Int) - b) % 256).toNat :: rest, pc := st.pc + 1 },
           { stats with stack_operations := stats.stack_operations + 3 }, rng)) ∧
      (executeInstruction cfg 0x05 operand st stats rng =
         (true, { st with stack := a * b % 256 :: rest, pc := st.pc + 1 },
           { stats with stack_operations := stats.stack_operations + 3 }, rng)) ∧
      (executeInstruction cfg 0x08 operand st stats rng =
         (true, { st with stack := Nat.land a b % 256 :: rest, pc := st.pc + 1 },
           { stats with stack_operations := stats.stack_operations + 3 }, rng)) ∧
      (executeInstruction cfg 0x09 operand st stats rng =
         (true, { st with stack := Nat.lor a b % 256 :: rest, pc := st.pc + 1 },
           { stats with stack_operations := stats.stack_operations + 3 }, rng)) ∧
      (executeInstruction cfg 0x0A operand st stats rng =
         (true, { st with stack := Nat.xor a b % 256 :: rest, pc := st.pc + 1 },
           { stats with stack_operations := stats.stack_operations + 3 }, rng)) ∧
      (b ≠ 0 →
        executeInstruction cfg 0x06 operand st stats rng =
          (true, { st with stack := a / b % 256 :: rest, pc := st.pc + 1 },
            { stats with stack_operations := stats.stack_operations + 3 }, rng)) ∧
      (b ≠ 0 →
        executeInstruction cfg 0x07 operand st stats rng =
          (true, { st with stack := a % b % 256 :: rest, pc := st.pc + 1 },
            { stats with stack_operations := stats.stack_operations + 3 }, rng))) ∧
    (∀ (cfg : VMConfig) (operand : Nat) (st : VMState) (stats : ExecutionStats)
       (rng : List Nat) (a : Nat) (rest : List Nat),
      st.stack = 0 :: a :: rest →
      (executeInstruction cfg 0x06 operand st stats rng =
         (false, { st with stack := rest },
           { stats with error_message := "Division by zero" }, rng)) ∧
      (executeInstruction cfg 0x07 operand st stats rng =
         (false, { st with stack := rest },
           { stats with error_message := "Modulo by zero" }, rng))) ∧
    ((execute ⟨256, 256, 1024, 256, 10000⟩ [1, 10, 1, 20, 3, 255] []).1.stack = [30] ∧
      (execute ⟨256, 256, 1024, 256, 10000⟩ [1, 10, 1, 20, 3, 255] []).2.1.halted_normally = true) ∧
    ((execute ⟨256, 256, 1024, 256, 10000⟩ [1, 20, 1, 10, 4, 255] []).1.stack = [10] ∧
      (execute ⟨256, 256, 1024, 256, 10000⟩ [1, 20, 1, 10, 4, 255] []).2.1.halted_normally = true) ∧
    ((execute ⟨256, 256, 1024, 256, 10000⟩ [1, 10, 1, 0, 6, 255] []).2.1.halted_normally = false ∧
      (execute ⟨256, 256, 1024, 256, 10000⟩ [1, 10, 1, 0, 6, 255] []).2.1.error_message =
        "Division by zero") := by
  refine ⟨?_, ?_, ⟨by rfl, by rfl⟩, ⟨by rfl, by rfl⟩, ⟨by rfl, by rfl⟩⟩
  · intro cfg operand st stats rng a b rest hstack hlen
    refine ⟨?_, ?_, ?_, ?_, ?_, ?_, ?_, ?_⟩
    · rw [show executeInstruction cfg 0x03 operand st stats rng =
        executeBinaryOp cfg (fun a b => (a : Int) + b) none st stats rng from rfl,
        executeBinaryOp_ok cfg _ none st stats rng a b rest hstack hlen (Or.inl rfl)]
      rw [show toByte ((a : Int) + b) = (a + b) % 256 from by unfold toByte; omega]
    · exact executeBinaryOp_ok cfg _ none st stats rng a b rest hstack hlen (Or.inl rfl)
    · rw [show executeInstruction cfg 0x05 operand st stats rng =
        executeBinaryOp cfg (fun a b => (a : Int) * b) none st stats rng from rfl,
        executeBinaryOp_ok cfg _ none st stats rng a b rest hstack hlen (Or.inl rfl), toByte_mul]
    · rw [show executeInstruction cfg 0x08 operand st stats rng =
        executeBinaryOp cfg (fun a b => (Nat.land a b : Int)) none st stats rng from rfl,
        executeBinaryOp_ok cfg _ none st stats rng a b rest hstack hlen (Or.inl rfl),
        toByte_natCast]
    · rw [show executeInstruction cfg 0x09 operand st stats rng =
        executeBinaryOp cfg (fun a b => (Nat.lor a b : Int)) none st stats rng from rfl,
        executeBinaryOp_ok cfg _ none st stats rng a b rest hstack hlen (Or.inl rfl),
        toByte_natCast]
    · rw [show executeInstruction cfg 0x0A operand st stats rng =
        executeBinaryOp cfg (fun a b => (Nat.xor a b : Int)) none st stats rng from rfl,
        executeBinaryOp_ok cfg _ none st stats rng a b rest hstack hlen (Or.inl rfl),
        toByte_natCast]
    · intro hb
      rw [show executeInstruction cfg 0x06 operand st stats rng =
        executeBinaryOp cfg (fun a b => (a : Int) / b) (some "Division by zero") st stats rng
          from rfl,
        executeBinaryOp_ok cfg _ _ st stats rng a b rest hstack hlen (Or.inr hb), toByte_div]
    · intro hb
      rw [show executeInstruction cfg 0x07 operand st stats rng =
        executeBinaryOp cfg (fun a b => (a : Int) % b) (some "Modulo by zero") st stats rng
          from rfl,
        executeBinaryOp_ok cfg _ _ st stats rng a b rest hstack hlen (Or.inr hb), toByte_emod]
  · intro cfg operand st stats rng a rest hstack
    exact ⟨executeBinaryOp_zero cfg _ _ st stats rng a rest hstack,
      executeBinaryOp_zero cfg _ _ st stats rng a rest hstack⟩

/-- Witness for claim C1: the binary-op facts applied at a concrete stack
and the zero-divisor fact at a concrete state. -/
theorem claim_C1_binary_ops_witness :
    (executeInstruction ⟨8, 8, 16, 4, 10⟩ 0x03 0
        { stack := [20, 10], memory := [], pc := 0, x := 0, y := 0,
          color_r := 0, color_g := 0, color_b := 0, running := true } resetStats [] =
      (true,
        { stack := [30], memory := [], pc := 1, x := 0, y := 0,
          color_r := 0, color_g := 0, color_b := 0, running := true },
        { resetStats with stack_operations := 3 }, [])) ∧
    (executeInstruction ⟨8, 8, 16, 4, 10⟩ 0x06 0
        { stack := [0, 10], memory := [], pc := 0, x := 0, y := 0,
          color_r := 0, color_g := 0, color_b := 0, running := true } resetStats [] =
      (false,
        { stack := [], memory := [], pc := 0, x := 0, y := 0,
          color_r := 0, color_g := 0, color_b := 0, running := true },
        { resetStats with error_message := "Division by zero" }, [])) := by
  constructor
  · have h := (claim_C1_binary_ops.1 ⟨8, 8, 16, 4, 10⟩ 0
      { stack := [20, 10], memory := [], pc := 0, x := 0, y := 0,
        color_r := 0, color_g := 0, color_b := 0, running := true } resetStats [] 10 20 []
      rfl (by decide)).1
    simpa using h
  · have h := (claim_C1_binary_ops.2.1 ⟨8, 8, 16, 4, 10⟩ 0
      { stack := [0, 10], memory := [], pc := 0, x := 0, y := 0,
        color_r := 0, color_g := 0, color_b := 0, running := true } resetStats [] 10 []
      rfl).1
    simpa using h

theorem validateFrom_iff (code : List Nat) :
    ∀ (k i : Nat), code.length - i ≤ k → (validateFrom code k i = true ↔ WalksOK code i) := by
  intro k
  induction k with
  | zero =>
    intro i hk
    constructor
    · intro _; exact WalksOK.atEnd i (by omega)
    · intro _; rfl
  | succ n ih =>
    intro i hk
    by_cases h : i < code.length
    · simp only [validateFrom]
      simp only [if_pos h]
      by_cases hop : getOperandSize (code.getD i 0) = -1
      · simp only [hop, if_pos]
        constructor
        · intro hfalse; exact absurd hfalse (by simp)
        · intro hw
          exfalso
          cases hw with
          | atEnd _ hle => omega
          | step _ _ hknown _ _ => exact hknown hop
      · by_cases hcomp : i + (getOperandSize (code.getD i 0)).toNat ≥ code.length
        · simp only [hop, hcomp, if_false, if_true, if_neg, if_pos]
          constructor
          · intro hfalse; exact absurd hfalse (by simp)
          · intro hw
            exfalso
            cases hw with
            | atEnd _ hle => omega
            | step _ _ _ hcomplete _ => omega
        · have hrec := ih (i + 1 + (getOperandSize (code.getD i 0)).toNat) (by omega)
          simp only [hop, hcomp, if_neg, if_false]
          rw [hrec]
          constructor
          · intro hw
            exact WalksOK.step i h hop (by omega) hw
          · intro hw
            cases hw with
            | atEnd _ hle => omega
            | step _ _ _ _ rest => exact rest
    · simp only [validateFrom]
      simp only [if_neg h]
      constructor
      · intro _; exact WalksOK.atEnd i (by omega)
      · intro _; trivial

/-- Counterexample to claim C4: the claim asserts that `validate` accepts
exactly the programs whose instruction walk succeeds, and that the empty
bytecode (whose walk succeeds vacuously) is accepted; but
`validateBytecode` rejects the empty bytecode outright. -/
theorem claim_C4_counterexample :
    validateBytecode [] = false ∧ WalksOK ([] : List Nat) 0 :=
  ⟨rfl, WalksOK.atEnd 0 (by simp)⟩

/-- Claim C4 as amended: `validate` returns true iff the bytecode is
non-empty and the instruction walk from index 0 finds every instruction
complete and every opcode known (the empty bytecode is rejected even
though its walk is vacuously successful). -/
theorem claim_C4_validate_iff (code : List Nat) :
    validateBytecode code = true ↔ (code ≠ [] ∧ WalksOK code 0) := by
  unfold validateBytecode
  by_cases hc : code.isEmpty
  · have : code = [] := List.isEmpty_iff.mp hc
    subst this
    simp
  · have hne : code ≠ [] := by
      intro hcontra; subst hcontra; simp at hc
    simp only [hc, if_false, Bool.false_eq_true, if_neg]
    rw [validateFrom_iff code code.length 0 (by omega)]
    simp [hne]

theorem getOperandSize_cases (op : Nat) :
    getOperandSize op = -1 ∨ getOperandSize op = 0 ∨ getOperandSize op = 1 := by
  unfold getOperandSize
  split <;> simp

theorem getLast?_set_of_ne {l : List Nat} {j v : Nat} (hj : j ≠ l.length - 1) :
    (l.set j v).getLast? = l.getLast? := by
  rw [List.getLast?_eq_getElem?, List.getLast?_eq_getElem?, List.length_set]
  exact List.getElem?_set_ne hj

theorem getD_set_ne {l : List Nat} {j m v : Nat} (hj : j ≠ m) :
    (l.set j v).getD m 0 = l.getD m 0 := by
  simp only [List.getD_eq_getElem?_getD]
  rw [List.getElem?_set_ne hj]

theorem mutGo_spec (rate : ℚ) (mm : Nat) :
    ∀ (k : Nat) (code : List Nat) (i muts : Nat) (rnd : List MutRand),
    ((mutGo rate mm k code i muts rnd).1.length = code.length ∧
     ((getOperandSize (code.getD (code.length - 2) 0) ≠ 1 ∨ code.length - 1 ≤ i) →
       (mutGo rate mm k code i muts rnd).1.getLast? = code.getLast?)) := by
  intro k
  induction k with
  | zero =>
    intro code i muts rnd
    exact ⟨rfl, fun _ => rfl⟩
  | succ n ih =>
    intro code i muts rnd
    simp only [mutGo]
    by_cases hcond : i < code.length - 1 ∧ muts < mm
    case neg =>
      simp only [if_neg hcond]
      simp
    case pos =>
    simp only [if_pos hcond]
    by_cases hskip : getOperandSize (code.getD i 0) = -1 ∨
        i + (getOperandSize (code.getD i 0)).toNat ≥ code.length
    · simp only [if_pos hskip]
      obtain ⟨ha, hb⟩ := ih code (i + 1) muts rnd
      refine ⟨ha, fun hh => hb ?_⟩
      rcases hh with hw | hge
      · exact Or.inl hw
      · exact Or.inr (by omega)
    · simp only [if_neg hskip]
      by_cases hroll : (rnd.headD default).roll < rate
      · simp only [if_pos hroll]
        by_cases hmo : (decide (0 < getOperandSize (code.getD i 0)) &&
            decide ((rnd.headD default).roll2 < (1 : ℚ) / 2)) = true
        · simp only [hmo, if_true]
          have hos : getOperandSize (code.getD i 0) = 1 := by
            rw [Bool.and_eq_true, decide_eq_true_iff, decide_eq_true_iff] at hmo
            rcases getOperandSize_cases (code.getD i 0) with h | h | h
            · omega
            · omega
            · exact h
          by_cases hjump : code.getD i 0 = 0x0C ∨ code.getD i 0 = 0x0D ∨
              code.getD i 0 = 0x0E ∨ code.getD i 0 = 0x0F
          · simp only [if_pos hjump]
            by_cases htar : (i + 1 + (getOperandSize (code.getD i 0)).toNat) % 256 ≤
                min 255 (code.length - 2)
            · simp only [if_pos htar]
              obtain ⟨ha, hb⟩ := ih
                (code.set (i + 1) ((i + 1 + (getOperandSize (code.getD i 0)).toNat) % 256 +
                  (rnd.headD default).newByte %
                    (min 255 (code.length - 2) -
                      (i + 1 + (getOperandSize (code.getD i 0)).toNat) % 256 + 1)))
                (i + 1 + (getOperandSize (code.getD i 0)).toNat) (muts + 1) rnd.tail
              refine ⟨by rw [ha, List.length_set], fun hh => ?_⟩
              rcases hh with hw | hge
              · have hne1 : i + 1 ≠ code.length - 1 := by
                  intro hcontra
                  have hieq : i = code.length - 2 := by omega
                  rw [hieq] at hos
                  exact hw hos
                rw [← getLast?_set_of_ne hne1]
                apply hb
                by_cases hieq2 : i + 1 = code.length - 2
                · right; simp only [List.length_set]; rw [hos]; omega
                · left; rw [List.length_set, getD_set_ne hieq2]; exact hw
              · exact absurd hge (by omega)
            · simp only [if_neg htar]
              obtain ⟨ha, hb⟩ := ih (code.set i 0x00)
                (i + 1 + (getOperandSize (code.getD i 0)).toNat) (muts + 1) rnd.tail
              refine ⟨by rw [ha, List.length_set], fun hh => ?_⟩
              rcases hh with hw | hge
              · rw [← getLast?_set_of_ne (show i ≠ code.length - 1 by omega)]
                apply hb
                by_cases hieq : i = code.length - 2
                · right; simp only [List.length_set]; rw [hos]; omega
                · left; rw [List.length_set, getD_set_ne hieq]; exact hw
              · exact absurd hge (by omega)
          · simp only [if_neg hjump]
            obtain ⟨ha, hb⟩ := ih (code.set (i + 1) ((rnd.headD default).newByte % 256))
              (i + 1 + (getOperandSize (code.getD i 0)).toNat) (muts + 1) rnd.tail
            refine ⟨by rw [ha, List.length_set], fun hh => ?_⟩
            rcases hh with hw | hge
            · have hne1 : i + 1 ≠ code.length - 1 := by
                intro hcontra
                have hieq : i = code.length - 2 := by omega
                rw [hieq] at hos
                exact hw hos
              rw [← getLast?_set_of_ne hne1]
              apply hb
              by_cases hieq2 : i + 1 = code.length - 2
              · right; simp only [List.length_set]; rw [hos]; omega
              · left; rw [List.length_set, getD_set_ne hieq2]; exact hw
            · exact absurd hge (by omega)
        · simp only [hmo, Bool.false_eq_true, if_false]
          obtain ⟨ha, hb⟩ := ih
            (code.set i (all_mutable_opcodes.getD ((rnd.headD default).opIdx % 30) 0))
            (i + 1 + (getOperandSize (code.getD i 0)).toNat) (muts + 1) rnd.tail
          refine ⟨by rw [ha, List.length_set], fun hh => ?_⟩
          rcases hh with hw | hge
          · rw [← getLast?_set_of_ne (show i ≠ code.length - 1 by omega)]
            apply hb
            by_cases hieq : i = code.length - 2
            · right; simp only [List.length_set]; omega
            · left; rw [List.length_set, getD_set_ne hieq]; exact hw
          · exact absurd hge (by omega)
      · simp only [if_neg hroll]
        obtain ⟨ha, hb⟩ := ih code (i + 1 + (getOperandSize (code.getD i 0)).toNat) muts
          rnd.tail
        refine ⟨ha, fun hh => hb ?_⟩
        rcases hh with hw | hge
        · exact Or.inl hw
        · exact Or.inr (by omega)

set_option maxHeartbeats 1600000 in
/-- Counterexample to claim C3: with mutation rate 1 and suitable random
draws, (i) on the bytecode `[PUSH, 0xFF]` (whose final byte is the HALT
byte value, sitting in the operand slot of PUSH) `applyMutations` replaces
the final byte, and (ii) on the valid bytecode `[PUSH, 0x99, HALT]` an
opcode replacement of PUSH by NOP leaves `0x99` exposed as an opcode, so
validation no longer holds on the mutated bytecode. -/
theorem claim_C3_counterexample :
    (applyMutations [0x01, 0xFF] 1 1 [⟨0, 0, 7, 0⟩]).1 = [0x01, 0x07] ∧
    validateBytecode [0x01, 0x99, 0xFF] = true ∧
    (applyMutations [0x01, 0x99, 0xFF] 1 1 [⟨0, 1, 0, 0⟩]).1 = [0x00, 0x99, 0xFF] ∧
    validateBytecode (applyMutations [0x01, 0x99, 0xFF] 1 1 [⟨0, 1, 0, 0⟩]).1 = false := by
  have h0 : (0 : ℚ) < 1 / 2 := by norm_num
  have h1 : ¬ ((1 : ℚ) < 1 / 2) := by norm_num
  have h2 : (0 : ℚ) < 1 := by norm_num
  have hmut : (applyMutations [0x01, 0x99, 0xFF] 1 1 [⟨0, 1, 0, 0⟩]).1 =
      [0x00, 0x99, 0xFF] := by
    norm_num [applyMutations, mutGo, getOperandSize, all_mutable_opcodes, h1, h2] <;> decide
  refine ⟨?_, by decide, hmut, ?_⟩
  · norm_num [applyMutations, mutGo, getOperandSize, h0, h2] <;> decide
  · rw [hmut]; decide

/-- Claim C3 as amended: `applyMutations` preserves the length of the
bytecode, and it never changes the final byte provided the byte at index
`length - 2` is not a 1-operand opcode (so the final byte is not an
operand slot); in particular a terminal HALT preceded by a complete
0-operand instruction is protected.  Preservation of validation does not
hold and is dropped (see the counterexample). -/
theorem claim_C3_mutation_bounds (code : List Nat) (rate : ℚ) (maxMut : Nat)
    (rnd : List MutRand) :
    (applyMutations code rate maxMut rnd).1.length = code.length ∧
    (getOperandSize (code.getD (code.length - 2) 0) ≠ 1 →
      (applyMutations code rate maxMut rnd).1.getLast? = code.getLast?) := by
  unfold applyMutations
  split
  · exact ⟨rfl, fun _ => rfl⟩
  · obtain ⟨ha, hb⟩ := mutGo_spec rate maxMut code.length code 0 0 rnd
    exact ⟨ha, fun hw => hb (Or.inl hw)⟩

/-- Witness for the amended claim C3: a mutated `[DRAW_PIXEL, HALT]`
program keeps its final HALT byte. -/
theorem claim_C3_mutation_bounds_witness :
    (applyMutations [0x13, 0xFF] 1 1 [⟨0, 0, 7, 0⟩]).1.getLast? = some 0xFF :=
  ((claim_C3_mutation_bounds [0x13, 0xFF] 1 1 [⟨0, 0, 7, 0⟩]).2 (by decide)).trans (by decide)

theorem ratFloor_eq_intFloor (q : ℚ) : q.floor = ⌊q⌋ := rfl

theorem reproduceWith_some_fields (p1 p2 : OrgRecord) (newId : Nat) (rate : ℚ)
    (maxMut : Nat) (rnd : ReproRand) (c : OrgRecord)
    (h : reproduceWith p1 p2 newId rate maxMut rnd = some c) :
    c.parent_id = p1.id ∧ c.generation = p1.generation + 1 := by
  unfold reproduceWith at h
  by_cases hemp : p1.bytecode = [] ∨ p2.bytecode = []
  · rw [if_pos hemp] at h
    exact absurd h (by simp)
  · rw [if_neg hemp] at h
    simp only [Option.some.injEq] at h
    rw [← h]
    exact ⟨rfl, rfl⟩

/-- Claim C6: `reproduceWith` returns no child exactly when one parent's
bytecode is empty, and any child it does return has generation equal to
parent 1's generation plus one. -/
theorem claim_C6_reproduce (p1 p2 : OrgRecord) (newId : Nat) (rate : ℚ)
    (maxMut : Nat) (rnd : ReproRand) :
    (reproduceWith p1 p2 newId rate maxMut rnd = none ↔
      (p1.bytecode = [] ∨ p2.bytecode = [])) ∧
    (∀ c, reproduceWith p1 p2 newId rate maxMut rnd = some c →
      c.generation = p1.generation + 1) := by
  constructor
  · unfold reproduceWith
    by_cases hemp : p1.bytecode = [] ∨ p2.bytecode = []
    · simp [hemp]
    · simp [hemp]
  · intro c hc
    exact (reproduceWith_some_fields p1 p2 newId rate maxMut rnd c hc).2

/-- Witness for claim C6: an empty-parent pair yields no child, and a
concrete successful reproduction yields a child of generation 5 from a
generation-4 parent. -/
theorem claim_C6_reproduce_witness :
    (reproduceWith ⟨1, 4, 0, 0, []⟩ ⟨2, 0, 0, 0, [0xFF]⟩ 9 1 1 ⟨0, 0, []⟩ = none ↔
      ((⟨1, 4, 0, 0, []⟩ : OrgRecord).bytecode = [] ∨
       (⟨2, 0, 0, 0, [0xFF]⟩ : OrgRecord).bytecode = [])) ∧
    ∃ c, reproduceWith ⟨1, 4, 0, 0, [0xFF, 0xFF]⟩ ⟨2, 0, 0, 0, [0xFF]⟩ 9 1 0 ⟨0, 0, []⟩ =
      some c ∧ c.generation = 5 := by
  constructor
  · exact (claim_C6_reproduce ⟨1, 4, 0, 0, []⟩ ⟨2, 0, 0, 0, [0xFF]⟩ 9 1 1 ⟨0, 0, []⟩).1
  · have h1 : ¬ ((1 : ℚ) ≤ 0) := by norm_num
    have hc : reproduceWith ⟨1, 4, 0, 0, [0xFF, 0xFF]⟩ ⟨2, 0, 0, 0, [0xFF]⟩ 9 1 0 ⟨0, 0, []⟩ =
        some ⟨9, 5, 1, 0, [0xFF]⟩ := by
      norm_num [reproduceWith, findUnitBoundaries, findUnitBoundariesGo, isDrawingOp,
        getOperandSize, applyMutations, mkOrganism, h1]
      intro h
      exact absurd h (by simp)
    refine ⟨⟨9, 5, 1, 0, [0xFF]⟩, hc, ?_⟩
    exact (claim_C6_reproduce ⟨1, 4, 0, 0, [0xFF, 0xFF]⟩ ⟨2, 0, 0, 0, [0xFF]⟩ 9 1 0
      ⟨0, 0, []⟩).2 _ hc


theorem calculateFitnessScore_eq (cfg : AnalyzerConfig) (r : SymmetryResult) :
    calculateFitnessScore cfg r =
      max 0 (min 1
        ((if cfg.enable_horizontal then r.horizontal_symmetry * cfg.horizontal_weight else 0) +
         (if cfg.enable_vertical then r.vertical_symmetry * cfg.vertical_weight else 0) +
         (if cfg.enable_diagonal then r.diagonal_symmetry * cfg.diagonal_weight else 0) +
         (if cfg.enable_rotational then r.rotational_symmetry * cfg.rotational_weight else 0) +
         (if cfg.enable_complexity then r.complexity_score * cfg.complexity_weight else 0))) := by
  have hite : ∀ (b : Bool) (x t : ℚ), (if b then x + t else x) = x + (if b then t else 0) := by
    intro b x t
    cases b <;> simp
  unfold calculateFitnessScore
  simp only [hite, zero_add]

/-- Claim C7: the analysis result's overall symmetry is the plain average
of its four per-axis scores, independently of which axes are enabled,
while its fitness score is the enabled-weighted sum of the component
scores clamped to [0, 1]. -/
theorem claim_C7_overall_and_fitness (cfg : AnalyzerConfig) (edgeCount : Img → Nat)
    (img : Img) :
    (analyze cfg edgeCount img).overall_symmetry =
      ((analyze cfg edgeCount img).horizontal_symmetry +
       (analyze cfg edgeCount img).vertical_symmetry +
       (analyze cfg edgeCount img).diagonal_symmetry +
       (analyze cfg edgeCount img).rotational_symmetry) / 4 ∧
    (analyze cfg edgeCount img).fitness_score =
      max 0 (min 1
        ((if cfg.enable_horizontal then
            (analyze cfg edgeCount img).horizontal_symmetry * cfg.horizontal_weight else 0) +
         (if cfg.enable_vertical then
            (analyze cfg edgeCount img).vertical_symmetry * cfg.vertical_weight else 0) +
         (if cfg.enable_diagonal then
            (analyze cfg edgeCount img).diagonal_symmetry * cfg.diagonal_weight else 0) +
         (if cfg.enable_rotational then
            (analyze cfg edgeCount img).rotational_symmetry * cfg.rotational_weight else 0) +
         (if cfg.enable_complexity then
            (analyze cfg edgeCount img).complexity_score * cfg.complexity_weight else 0))) := by
  unfold analyze
  by_cases h : img.rows * img.cols = 0
  · rw [if_pos h]
    have hd : (default : SymmetryResult) = ⟨0, 0, 0, 0, 0, 0, 0⟩ := rfl
    rw [hd]
    constructor
    · norm_num
    · simp
  · rw [if_neg h]
    dsimp only
    refine ⟨rfl, ?_⟩
    rw [calculateFitnessScore_eq]

/-- Claim C8 counter-theorem: in the S4 configuration (pressures disabled,
resource abundance 10) with the ten S4 organisms, environmental pressures
leave the population and statistics completely unchanged for every random
draw; no organism — in particular no low-fitness organism — is removed.
There is no selection-pressure mechanism in the environment. -/
theorem claim_C8_pressures_noop (stats : EnvStats) (rnd : PressRand) :
    applyEnvironmentalPressures cfgS4 popS4 stats rnd = (popS4, stats) := by
  have hsus : Int.toNat (((cfgS4.max_population : ℚ) * cfgS4.resource_abundance).floor) = 200 := by
    show Int.toNat (((20 : ℚ) * 10).floor) = 200
    rw [ratFloor_eq_intFloor, show ⌊(20 : ℚ) * 10⌋ = 200 by norm_num]
    rfl
  have h1 : applyResourceScarcity cfgS4 popS4 stats rnd.shuffled1 = (popS4, stats) := by
    unfold applyResourceScarcity
    rw [hsus]
    norm_num [popS4]
  have hcat : cfgS4.enable_random_catastrophes = false := rfl
  have hpred : cfgS4.enable_predation = false := rfl
  unfold applyEnvironmentalPressures
  rw [h1]
  simp only [hcat, hpred, Bool.false_eq_true, if_false]

theorem foldl_insertOrganism_eq :
    ∀ (l acc : List OrgRecord),
      (∀ o ∈ l, ∀ p ∈ acc, p.id ≠ o.id) →
      (l.map (fun o => o.id)).Nodup →
      l.foldl insertOrganism acc = acc ++ l := by
  intro l
  induction l with
  | nil =>
    intro acc _ _
    simp
  | cons o rest ih =>
    intro acc hdisj hnodup
    have hnodup' : o.id ∉ rest.map (fun x => x.id) ∧ (rest.map (fun x => x.id)).Nodup := by
      rw [List.map_cons, List.nodup_cons] at hnodup
      exact hnodup
    have hany : acc.any (fun p => p.id = o.id) = false := by
      rw [List.any_eq_false]
      intro p hp
      simpa using hdisj o (List.mem_cons_self o rest) p hp
    have hins : insertOrganism acc o = acc ++ [o] := by
      unfold insertOrganism
      rw [hany]
      simp
    rw [List.foldl_cons, hins, ih (acc ++ [o]) ?_ hnodup'.2]
    · simp
    · intro o' ho' p hp
      rcases List.mem_append.mp hp with hp | hp
      · exact hdisj o' (List.mem_cons_of_mem _ ho') p hp
      · have hpo : p = o := by simpa using hp
        subst hpo
        intro he
        exact hnodup'.1 (he ▸ List.mem_map_of_mem (fun x => x.id) ho')

theorem calculateFitnessStats_counters (pop : List OrgRecord) (st : EnvStats) :
    (calculateFitnessStats pop st).generation = st.generation ∧
    (calculateFitnessStats pop st).population_size = st.population_size ∧
    (calculateFitnessStats pop st).total_organisms_created = st.total_organisms_created ∧
    (calculateFitnessStats pop st).total_organisms_died = st.total_organisms_died := by
  unfold calculateFitnessStats
  dsimp only
  split <;> exact ⟨rfl, rfl, rfl, rfl⟩

theorem updateStatsEnv_counters (env : Env) :
    (updateStatsEnv env).stats.generation = env.stats.generation ∧
    (updateStatsEnv env).stats.population_size = env.population.length ∧
    (updateStatsEnv env).stats.total_organisms_created = env.stats.total_organisms_created ∧
    (updateStatsEnv env).stats.total_organisms_died = env.stats.total_organisms_died := by
  unfold updateStatsEnv
  by_cases h : env.population = []
  · rw [if_pos h]
    exact ⟨rfl, rfl, rfl, rfl⟩
  · rw [if_neg h]
    obtain ⟨h1, h2, h3, h4⟩ := calculateFitnessStats_counters env.population
      { env.stats with
          population_size := env.population.length
          max_population := env.config.max_population }
    exact ⟨h1, h2, h3, h4⟩

/-- Claim C5: a checkpoint written by `saveState` and read back by
`loadState` restores the generation counter, the population size and the
cumulative creation/death counters, provided the saved statistics'
population size agrees with the saved population (the program keeps the
two in sync through `updateStats`) and the saved organisms carry distinct
ids (the population is a map keyed by id). -/
theorem claim_C5_saveload_roundtrip (env : Env) (freshSeed : String) (env2 : Env)
    (hsync : env.stats.population_size = env.population.length)
    (hnodup : (env.population.map (fun o => o.id)).Nodup) :
    ∃ env', loadState (saveState env) freshSeed env2 = some env' ∧
      env'.stats.generation = env.stats.generation ∧
      env'.stats.population_size = env.stats.population_size ∧
      env'.stats.total_organisms_created = env.stats.total_organisms_created ∧
      env'.stats.total_organisms_died = env.stats.total_organisms_died := by
  have hpop : env.population.foldl insertOrganism [] = env.population := by
    simpa using foldl_insertOrganism_eq env.population [] (by simp) hnodup
  unfold loadState saveState
  rw [if_neg (by simp)]
  dsimp only
  rw [hpop]
  refine ⟨_, rfl, ?_, ?_, ?_, ?_⟩
  · exact (updateStatsEnv_counters _).1
  · exact (updateStatsEnv_counters _).2.1.trans hsync.symm
  · exact (updateStatsEnv_counters _).2.2.1
  · exact (updateStatsEnv_counters _).2.2.2

/-- Witness for claim C5: the concrete environment `envC5` (one organism,
stats in sync) round-trips its counters through save and load. -/
theorem claim_C5_saveload_roundtrip_witness :
    ∃ env', loadState (saveState envC5) "seed" envC5 = some env' ∧
      env'.stats.generation = envC5.stats.generation ∧
      env'.stats.population_size = envC5.stats.population_size ∧
      env'.stats.total_organisms_created = envC5.stats.total_organisms_created ∧
      env'.stats.total_organisms_died = envC5.stats.total_organisms_died :=
  claim_C5_saveload_roundtrip envC5 "seed" envC5 rfl (by decide)

theorem repGo_mem (cfg : EnvConfig) (genB : Nat → List Nat) (gen : Nat)
    (pool : List OrgRecord) (popSize target : Nat) :
    ∀ (fuel parent_idx nextId : Nat) (rnd : List RepRand) (acc : List OrgRecord)
      (o : OrgRecord),
      o ∈ repGo cfg genB gen pool popSize target fuel parent_idx nextId rnd acc →
      o ∈ acc ∨
      (o.parent_id = gen ∧ o.generation = if gen = 0 then 0 else 1) ∨
      (∃ p, p ∈ pool ∧ o.parent_id = p.id ∧ o.generation = p.generation + 1) := by
  intro fuel
  induction fuel with
  | zero =>
    intro parent_idx nextId rnd acc o ho
    exact Or.inl ho
  | succ n ih =>
    intro parent_idx nextId rnd acc o ho
    simp only [repGo] at ho
    by_cases hguard : popSize + acc.length < target
    case neg =>
      rw [if_neg hguard] at ho
      exact Or.inl ho
    case pos =>
    rw [if_pos hguard] at ho
    by_cases himm : (rnd.headD default).roll < cfg.immigration_chance
    · rw [if_pos himm] at ho
      rcases ih _ _ _ _ _ ho with hacc | hrest
      · rcases List.mem_append.mp hacc with hmem | hmem
        · exact Or.inl hmem
        · right; left
          have hoeq : o = mkOrganism (genB (5 + (rnd.headD default).num_prim % 11)) nextId gen := by
            simpa using hmem
          rw [hoeq]
          exact ⟨rfl, rfl⟩
      · exact Or.inr hrest
    · rw [if_neg himm] at ho
      by_cases hpool : pool.length < 2
      · rw [if_pos hpool] at ho
        exact Or.inl ho
      · rw [if_neg hpool] at ho
        split at ho
        · exact ih _ _ _ _ _ ho
        · rename_i offspring heq
          rcases ih _ _ _ _ _ ho with hacc | hrest
          · rcases List.mem_append.mp hacc with hmem | hmem
            · exact Or.inl hmem
            · right; right
              have hoeq : o = offspring := by simpa using hmem
              obtain ⟨hpid, hgen⟩ := reproduceWith_some_fields _ _ _ _ _ _ _ heq
              have hlt : parent_idx % pool.length < pool.length :=
                Nat.mod_lt _ (by omega)
              refine ⟨pool.getD (parent_idx % pool.length) default, ?_, ?_, ?_⟩
              · rw [List.getD_eq_getElem _ _ hlt]
                exact List.getElem_mem hlt
              · rw [hoeq]; exact hpid
              · rw [hoeq]; exact hgen
          · exact Or.inr hrest

theorem repGo_immigrant_step (cfg : EnvConfig) (genB : Nat → List Nat) (gen : Nat)
    (pool : List OrgRecord) (popSize target fuel parent_idx nextId : Nat)
    (rnd : List RepRand) (acc : List OrgRecord)
    (hg : popSize + acc.length < target)
    (hroll : (rnd.headD default).roll < cfg.immigration_chance) :
    repGo cfg genB gen pool popSize target (fuel + 1) parent_idx nextId rnd acc =
    repGo cfg genB gen pool popSize target fuel parent_idx (nextId + 1) rnd.tail
      (acc ++ [mkOrganism (genB (5 + (rnd.headD default).num_prim % 11)) nextId gen]) := by
  simp only [repGo]
  rw [if_pos hg, if_pos hroll]

theorem repGo_stop (cfg : EnvConfig) (genB : Nat → List Nat) (gen : Nat)
    (pool : List OrgRecord) (popSize target fuel parent_idx nextId : Nat)
    (rnd : List RepRand) (acc : List OrgRecord)
    (hg : ¬ (popSize + acc.length < target)) :
    repGo cfg genB gen pool popSize target (fuel + 1) parent_idx nextId rnd acc = acc := by
  simp only [repGo]
  rw [if_neg hg]

/-- Claim C10: every organism added by `performReproduction` is either an
immigrant — built with the current generation counter as its `parent_id`,
its own generation being 0 when the counter is 0 and 1 otherwise — or a
crossover child of a pool organism `p` with `parent_id = p.id` and
generation `p.generation + 1`; in particular immigrants record the
generation counter, not a parent organism's id, in `parent_id`, and their
generation field is not the current generation. -/
theorem claim_C10_immigrant_lineage (cfg : EnvConfig) (genB : Nat → List Nat) (gen : Nat)
    (pop pool : List OrgRecord) (nextId : Nat) (rnd : List RepRand) (o : OrgRecord)
    (ho : o ∈ (performReproduction cfg genB gen pop pool nextId rnd).2) :
    (o.parent_id = gen ∧ o.generation = if gen = 0 then 0 else 1) ∨
    (∃ p, p ∈ pool ∧ o.parent_id = p.id ∧ o.generation = p.generation + 1) := by
  unfold performReproduction at ho
  dsimp only at ho
  rcases repGo_mem cfg genB gen pool pop.length _ _ _ _ _ _ o ho with h | h
  · exact absurd h (by simp)
  · exact h

set_option maxHeartbeats 3200000 in
/-- Witness for claim C10: with certain immigration (`cfgC10`), an empty
pool and generation counter 3, the reproduction loop creates the immigrant
`mkOrganism [HALT] 7 3`, which records `parent_id = 3` and generation 1. -/
theorem claim_C10_immigrant_lineage_witness :
    ((mkOrganism [0xFF] 7 3).parent_id = 3 ∧
      (mkOrganism [0xFF] 7 3).generation = if (3 : Nat) = 0 then 0 else 1) ∨
    (∃ p, p ∈ ([] : List OrgRecord) ∧ (mkOrganism [0xFF] 7 3).parent_id = p.id ∧
      (mkOrganism [0xFF] 7 3).generation = p.generation + 1) := by
  have hceil : Int.toNat (((([] : List OrgRecord).length : ℚ) * (11 / 10)).ceil) = 0 := by
    rw [show ((([] : List OrgRecord).length : ℚ)) * (11 / 10) = 0 by norm_num]
    rfl
  have himm : (0 : ℚ) < 1 := by norm_num
  have hic : cfgC10.immigration_chance = 1 := rfl
  have htar : min cfgC10.max_population
      (max cfgC10.min_population
        (Int.toNat (((([] : List OrgRecord).length : ℚ) * (11 / 10)).ceil))) = 1 := by
    rw [hceil]
    decide
  have hg1 : (0 : Nat) + ([] : List OrgRecord).length < 1 := by decide
  have hr1 : (([⟨0, 0, 0, 0, []⟩] : List RepRand).headD default).roll <
      cfgC10.immigration_chance := by
    rw [hic]
    exact himm
  have hstop : ¬ ((0 : Nat) + [mkOrganism [0xFF] 7 3].length < 1) := by decide
  have hmem : mkOrganism [0xFF] 7 3 ∈
      (performReproduction cfgC10 (fun _ => [0xFF]) 3 [] [] 7 [⟨0, 0, 0, 0, []⟩]).2 := by
    dsimp only [performReproduction]
    rw [htar]
    show mkOrganism [0xFF] 7 3 ∈
      repGo cfgC10 (fun _ => [0xFF]) 3 [] 0 1 (9 + 1) 0 7 [⟨0, 0, 0, 0, []⟩] []
    rw [repGo_immigrant_step _ _ _ _ _ _ _ _ _ _ _ hg1 hr1]
    show mkOrganism [0xFF] 7 3 ∈
      repGo cfgC10 (fun _ => [0xFF]) 3 [] 0 1 (8 + 1) 0 8 [] [mkOrganism [0xFF] 7 3]
    rw [repGo_stop _ _ _ _ _ _ _ _ _ _ _ hstop]
    simp
  exact claim_C10_immigrant_lineage cfgC10 (fun _ => [0xFF]) 3 [] [] 7 [⟨0, 0, 0, 0, []⟩]
    (mkOrganism [0xFF] 7 3) hmem
